import Mathlib

/-!
Phobos: layout encoders, configuration of copies, DSS string access.

A shallow embedding of the inline functions of `pho_layout.h`
(`layout_step`, `is_encoder`, `is_decoder`, `is_delete`, `encoder_type2str`),
of `get_cfg_default_copy_name` (`cfg_copy.c`), of `get_str_value`
(`dss_utils.h`) and of the SCSI log test harness (`test_scsi_logs.c`:
`mock_ioctl`, the assertions of `scsi_logs_check`, `create_log_message` over
a model of the JSON values of jansson).
The functions that the headers only declare (`dev_load`, `layout_locate`,
`layout_encode`, `layout_decode`, `layout_delete`, `layout_destroy`,
`phobos_put`, `phobos_get`, `phobos_getmd`, `_pho_cfg_get`) are modelled from
their documentation and from the specification; each says so.

C pointers are addresses (`Ptr`, with `NULL = 0`); the objects they point to
live in a `Memory`.  Function pointers are addresses too, resolved through a
table of code that is kept apart from the memory.
-/

namespace Phobos

/-! ## errno values used by the sources -/

/-- Value of `EINVAL` in `errno.h`. -/
def EINVAL : Int := 22

/-- Value of `ENODATA` in `errno.h`. -/
def ENODATA : Int := 61

/-! ## pho_layout.h -/

/-- An address; `0` is the null pointer. -/
abbrev Ptr := Nat

/-- The null pointer. -/
def NULL : Ptr := 0

/-- Value of `PHO_ENC_ENCODER` in `enum encoder_type`. -/
def PHO_ENC_ENCODER : Int := 0

/-- Value of `PHO_ENC_DECODER` in `enum encoder_type`. -/
def PHO_ENC_DECODER : Int := 1

/-- Value of `PHO_ENC_ERASER` in `enum encoder_type`. -/
def PHO_ENC_ERASER : Int := 2

/-- The record `struct pho_enc_ops`: two function pointers. -/
structure pho_enc_ops where
  step : Ptr
  destroy : Ptr
  deriving DecidableEq, Repr

/-- The record `struct pho_encoder`, field by field.  The field `type` is
an `enum encoder_type`, which C stores as an integer. -/
structure pho_encoder where
  priv_enc : Ptr
  ops : Ptr
  type : Int
  done : Bool
  xfer : Ptr
  layout : Ptr
  io_block_size : Nat
  last_resp : Ptr
  deriving DecidableEq, Repr

/-- The part of the memory `layout_step` and the layout operations work on:
the encoders, the operation vectors, and the two kinds of cells the caller
hands over for the outputs (`pho_req_t *` cells and `size_t` cells). -/
structure Memory where
  encoders : Ptr → Option pho_encoder
  ops_vectors : Ptr → Option pho_enc_ops
  req_cells : Ptr → Option Ptr
  size_cells : Ptr → Option Nat

/-- Dereference of a `struct pho_encoder *`: nothing lives at `NULL`. -/
def Memory.enc_at (m : Memory) (p : Ptr) : Option pho_encoder :=
  if p = NULL then none else m.encoders p

/-- Dereference of a `const struct pho_enc_ops *`: nothing lives at `NULL`. -/
def Memory.ops_at (m : Memory) (p : Ptr) : Option pho_enc_ops :=
  if p = NULL then none else m.ops_vectors p

/-- The code of a `step` operation: called with the four arguments of
`layout_step`, it returns an `int` and may write to the memory. -/
abbrev step_fn := Memory → Ptr → Ptr → Ptr → Ptr → Int × Memory

/-- The code the function pointers of the operation vectors resolve to. -/
abbrev Code := Ptr → Option step_fn

/-- Resolution of a function pointer: no code lives at `NULL`. -/
def fn_at (code : Code) (p : Ptr) : Option step_fn :=
  if p = NULL then none else code p

/-- What stops a call short of returning. -/
inductive Fault where
  /-- An `assert` of `CHECK_ENC_OP` failed. -/
  | assertion
  /-- A pointer that is null or dangling was dereferenced. -/
  | bad_pointer
  deriving DecidableEq, Repr

/-- Function `is_encoder`: `enc->type == PHO_ENC_ENCODER`. -/
def is_encoder (enc : pho_encoder) : Bool :=
  enc.type == PHO_ENC_ENCODER

/-- Function `is_decoder`: `dec->type == PHO_ENC_DECODER`. -/
def is_decoder (dec : pho_encoder) : Bool :=
  dec.type == PHO_ENC_DECODER

/-- Function `is_delete`: `dec->type == PHO_ENC_ERASER`. -/
def is_delete (dec : pho_encoder) : Bool :=
  dec.type == PHO_ENC_ERASER

/-- Function `layout_step`.  The done flag is read first and gives `-EINVAL`; then come
the three assertions of `CHECK_ENC_OP(enc, step)`; then the call
`enc->ops->step(enc, resp, reqs, n_reqs)`, whose value is returned. -/
def layout_step (code : Code) (m : Memory) (enc resp reqs n_reqs : Ptr) :
    Except Fault (Int × Memory) :=
  match m.enc_at enc with
  | none => .error .bad_pointer
  | some e =>
    if e.done then .ok (-EINVAL, m)
    else if enc = NULL then .error .assertion
    else if e.ops = NULL then .error .assertion
    else
      match m.ops_at e.ops with
      | none => .error .bad_pointer
      | some o =>
        if o.step = NULL then .error .assertion
        else
          match fn_at code o.step with
          | none => .error .bad_pointer
          | some f => .ok (f m enc resp reqs n_reqs)

/-! ## cfg_copy.c -/

/-- The record `struct pho_config_item`: three `char *`, each of which may be
`NULL`.  (The C field `section` is named `section_name` here, the C name
being reserved.) -/
structure pho_config_item where
  section_name : Option String
  name : Option String
  value : Option String
  deriving DecidableEq, Repr

/-- Macro `DEFAULT_COPY_NAME_ATTR_KEY`. -/
def DEFAULT_COPY_NAME_ATTR_KEY : String := "default_copy_name"

/-- Value of `PHO_CFG_COPY_default_copy_name`, first value of `enum pho_cfg_params_io`. -/
def PHO_CFG_COPY_default_copy_name : Int := 0

/-- Value of `PHO_CFG_COPY_FIRST`. -/
def PHO_CFG_COPY_FIRST : Int := PHO_CFG_COPY_default_copy_name

/-- Value of `PHO_CFG_COPY_LAST`. -/
def PHO_CFG_COPY_LAST : Int := PHO_CFG_COPY_default_copy_name

/-- The table `cfg_copy`. -/
def cfg_copy : List pho_config_item :=
  [{ section_name := some "copy",
     name := some DEFAULT_COPY_NAME_ATTR_KEY,
     value := some "source" }]

/-- The type of `_pho_cfg_get`, which `pho_cfg.h` declares: first index, last
index, index of the parameter, table of the module; the result is a
`const char *`, `none` standing for `NULL`. -/
abbrev cfg_get_fn := Int → Int → Int → List pho_config_item → Option String

/-- Function `get_cfg_default_copy_name`.  `cfg_get` is the `_pho_cfg_get` the macro
`PHO_CFG_GET` expands to a call of; `copy_name` is what the caller's
`*copy_name` holds before the call.  The result is the returned `int` and what
`*copy_name` holds after the call. -/
def get_cfg_default_copy_name (cfg_get : cfg_get_fn) (copy_name : Option String) :
    Int × Option String :=
  let default_copy_name :=
    cfg_get PHO_CFG_COPY_FIRST PHO_CFG_COPY_LAST PHO_CFG_COPY_default_copy_name cfg_copy
  match default_copy_name with
  | none => (-EINVAL, copy_name)
  | some s => (0, some s)

/-- The type of `pho_cfg_get_val`, which `pho_cfg.h` declares: section and name
of the parameter; the result is the returned `int` and the value stored in
`*value`. -/
abbrev cfg_get_val_fn := String → String → Int × Option String

/-- Modelled from the spec: `_pho_cfg_get` is declared in `pho_cfg.h` and its
body is not among the sources.  Its documentation reads "gets the value of a
configuration item and return default value (from module_params) if it is not
found", "the value on success and NULL on error".  The search of the sources of
configuration is `pho_cfg_get_val`, documented with `0` for "the parameter is
returned successfully" and `-ENODATA` for "the parameter is not found"; it is
a parameter.  An index outside `first_index .. last_index`, an item without
section or name, and any other return code of the search are errors. -/
def _pho_cfg_get (pho_cfg_get_val : cfg_get_val_fn) : cfg_get_fn :=
  fun first_index last_index param_index module_params =>
    if param_index < first_index ∨ last_index < param_index ∨ param_index < 0 then none
    else
      match module_params.get? param_index.toNat with
      | none => none
      | some item =>
        match item.section_name, item.name with
        | some sec, some nm =>
          let r := pho_cfg_get_val sec nm
          if r.1 = 0 then r.2
          else if r.1 = -ENODATA then item.value
          else none
        | _, _ => none

/-! ## dss_utils.h -/

/-- A query result of libpq (`PGresult`), as `PQgetisnull` and `PQgetvalue`
read it: rows of fields, a field being SQL NULL (`none`) or a string. -/
structure PGresult where
  tuples : List (List (Option String))
  deriving DecidableEq, Repr

/-- The field at a row and a column, when both are in range. -/
def PGresult.field (res : PGresult) (row_number column_number : Int) :
    Option (Option String) :=
  if row_number < 0 ∨ column_number < 0 then none
  else
    match res.tuples.get? row_number.toNat with
    | none => none
    | some row => row.get? column_number.toNat

/-- Function `PQgetisnull` of libpq: `1` if the field is null, `0` if it holds a
non-null value; arguments out of range give `1`. -/
def PQgetisnull (res : PGresult) (row_number column_number : Int) : Int :=
  match res.field row_number column_number with
  | some (some _) => 0
  | _ => 1

/-- Function `PQgetvalue` of libpq: the value of the field, the empty string for a null
field, and `NULL` for arguments out of range. -/
def PQgetvalue (res : PGresult) (row_number column_number : Int) : Option String :=
  match res.field row_number column_number with
  | none => none
  | some none => some ""
  | some (some v) => some v

/-- Function `get_str_value`: `NULL` when `PQgetisnull` is non-zero, else the result of
`PQgetvalue`. -/
def get_str_value (res : PGresult) (row_number column_number : Int) : Option String :=
  if PQgetisnull res row_number column_number ≠ 0 then none
  else PQgetvalue res row_number column_number

/-! ## test_scsi_logs.c: the mocked SCSI layer -/

/-- Opcode `MODE_SENSE` of `scsi/scsi.h`. -/
def MODE_SENSE : Nat := 0x1a

/-- Opcode `READ_ELEMENT_STATUS` of `scsi/scsi.h`. -/
def READ_ELEMENT_STATUS : Nat := 0xb8

/-- Opcode `MOVE_MEDIUM` of `scsi/scsi.h`. -/
def MOVE_MEDIUM : Nat := 0xa5

/-- Masked status `GOOD` of `scsi/scsi.h`. -/
def GOOD : Nat := 0x00

/-- Masked status `CHECK_CONDITION` of `scsi/scsi.h`; the expected log message
of the test spells it `"scsi_masked_status": 1`. -/
def CHECK_CONDITION : Nat := 0x01

/-- Sense key `SPC_SK_ILLEGAL_REQUEST`; the expected log message of the test
spells it `"sense_key": 5`. -/
def SPC_SK_ILLEGAL_REQUEST : Nat := 0x5

/-- The six kinds of `enum scsi_operation_type` the test names, in the order
of the cases of `op_to_mock`. -/
inductive scsi_operation_type where
  | LIBRARY_LOAD
  | ARMS_STATUS
  | SLOTS_STATUS
  | IMPEXP_STATUS
  | DRIVES_STATUS
  | LOAD_MEDIUM
  deriving DecidableEq, Repr

open scsi_operation_type

/-- The fields of `struct sg_io_hdr` the test reads and writes: the first byte
of the command block `cmdp` (the opcode), the `element_type_code` of the
command block when read as a `struct read_status_cdb`, the `masked_status`,
and the `sense_key` of the sense buffer `sbp`. -/
structure sg_io_hdr where
  cmd_code : Nat
  element_type_code : Nat
  masked_status : Nat
  sense_key : Nat
  deriving DecidableEq, Repr

/-- An `ioctl` on a SCSI generic device.  The call acts on the state `W` of
the world (kernel, library, drives): state, file descriptor, request and
header give the returned `int`, the header as the call leaves it, and the
state after the call. -/
abbrev ioctl_fn (W : Type) := W → Int → Nat → sg_io_hdr → Int × sg_io_hdr × W

/-- Function `get_op_params`.  `type` is what `*type` holds before the call (written
only for `READ_ELEMENT_STATUS`); the result is `*code` and `*type` after the
call, or `none` when the test is aborted by `fail()`. -/
def get_op_params (hdr : sg_io_hdr) (type : Nat) : Option (Nat × Nat) :=
  let code := hdr.cmd_code
  if code = READ_ELEMENT_STATUS then some (code, hdr.element_type_code)
  else if code ≠ MODE_SENSE ∧ code ≠ MOVE_MEDIUM then none
  else some (code, type)

/-- Function `op_to_mock`, on the six kinds of the enumeration (the `default` case,
which aborts the test, is for values outside of it). -/
def op_to_mock (op : scsi_operation_type) (current_element_type current_op : Nat) : Bool :=
  match op with
  | LIBRARY_LOAD => current_op == MODE_SENSE
  | ARMS_STATUS => current_op == READ_ELEMENT_STATUS && current_element_type == 1
  | SLOTS_STATUS => current_op == READ_ELEMENT_STATUS && current_element_type == 2
  | IMPEXP_STATUS => current_op == READ_ELEMENT_STATUS && current_element_type == 3
  | DRIVES_STATUS => current_op == READ_ELEMENT_STATUS && current_element_type == 4
  | LOAD_MEDIUM => current_op == MOVE_MEDIUM

/-- Function `mock_ioctl`.  `ioctl` is the real system call; `operation_to_mock` is the
value `mock()` yields, which `will_return_always(mock_ioctl, op)` sets to `op`.
The result is `none` when `get_op_params` aborts the test.  A mocked command
leaves the world as it is. -/
def mock_ioctl {W : Type} (ioctl : ioctl_fn W) (operation_to_mock : scsi_operation_type)
    (w : W) (fd : Int) (request : Nat) (hdr : sg_io_hdr) : Option (Int × sg_io_hdr × W) :=
  match get_op_params hdr 0 with
  | none => none
  | some (code, type) =>
    if !op_to_mock operation_to_mock type code then some (ioctl w fd request hdr)
    else some (0, { hdr with masked_status := CHECK_CONDITION,
                             sense_key := SPC_SK_ILLEGAL_REQUEST }, w)

/-- The `ioctl` the SCSI layer goes through: the hook `context->mock_ioctl`,
whose call may abort the test. -/
abbrev ioctl_hook (W : Type) := W → Int → Nat → sg_io_hdr → Option (Int × sg_io_hdr × W)

/-- The hook when nothing is mocked (`should_fail` false): the real `ioctl`. -/
def real_hook {W : Type} (ioctl : ioctl_fn W) : ioctl_hook W :=
  fun w fd request hdr => some (ioctl w fd request hdr)

/-- The hook `scsi_logs_check` installs: `mock_ioctl` with `op` when
`should_fail`, the real `ioctl` otherwise. -/
def scsi_logs_hook {W : Type} (ioctl : ioctl_fn W) (op : scsi_operation_type)
    (should_fail : Bool) : ioctl_hook W :=
  if should_fail then mock_ioctl ioctl op else real_hook ioctl

/-! ## test_scsi_logs.c: devices, media and log entries -/

/-- The resource families (`enum rsc_family`, declared in `pho_types.h`, which
is not among the sources); the test uses `PHO_RSC_TAPE` only. -/
inductive rsc_family where
  | PHO_RSC_DISK
  | PHO_RSC_TAPE
  | PHO_RSC_DIR
  deriving DecidableEq, Repr

open rsc_family

/-- The identity of a resource (`struct pho_id`): family and name. -/
structure pho_id where
  family : rsc_family
  name : String
  deriving DecidableEq, Repr

/-- The causes of a log entry (`enum operation_type`, declared in a header
that is not among the sources); the test reads `PHO_DEVICE_LOAD` only. -/
inductive operation_type where
  | PHO_DEVICE_LOAD
  | PHO_DEVICE_UNLOAD
  deriving DecidableEq, Repr

open operation_type

/-- The fields of `struct pho_log` that `scsi_logs_check` compares, the JSON
message apart. -/
structure pho_log where
  device : pho_id
  medium : pho_id
  error_number : Int
  cause : operation_type
  deriving DecidableEq, Repr

/-- The fields of `struct lrs_dev` that `create_device` sets to a value which
depends on its arguments: the path, and the identity, model and path of
`ld_dss_dev_info`. -/
structure lrs_dev where
  ld_dev_path : String
  rsc_id : pho_id
  rsc_model : Option String
  path : String
  deriving DecidableEq, Repr

/-- The fields of `struct media_info` that `create_medium` sets and the load
reads: the identity of the medium. -/
structure media_info where
  rsc_id : pho_id
  rsc_model : Option String
  deriving DecidableEq, Repr

/-- Function `create_device`: family tape, name and path both `path`. -/
def create_device (path model : String) : lrs_dev :=
  { ld_dev_path := path,
    rsc_id := { family := PHO_RSC_TAPE, name := path },
    rsc_model := some model,
    path := path }

/-- Function `create_medium`: family tape, the name given, no model. -/
def create_medium (name : String) : media_info :=
  { rsc_id := { family := PHO_RSC_TAPE, name := name },
    rsc_model := none }

/-- Value of `INT_MIN` for the 32-bit `int` of the platform. -/
def INT_MIN : Int := -2147483648

/-- Value of `INT_MAX` for the 32-bit `int` of the platform. -/
def INT_MAX : Int := 2147483647

/-- The 32-bit `int` an integer is stored as: the value modulo `2^32` that lies
between `INT_MIN` and `INT_MAX`. -/
def wrap_int (x : Int) : Int :=
  (x + 2147483648) % 4294967296 - 2147483648

/-- The unary minus of C on an `int`, in two's complement: the opposite of the
value, except that the opposite of `INT_MIN` is `INT_MIN`. -/
def int_neg (x : Int) : Int :=
  wrap_int (-x)

/-- Macro `assert_return_code(rc, error)` of cmocka: it passes when `rc` is not
negative. -/
def assert_return_code (rc _error : Int) : Bool :=
  decide (0 ≤ rc)

/-- The assertions of `scsi_logs_check` on the return code of `dev_load`:
`assert_int_equal(-rc, EINVAL)` when `should_fail`, else
`assert_return_code(-rc, rc)`.  `rc` is an `int` and `-rc` is the minus of C
on it (`int_neg`). -/
def scsi_logs_check_rc (should_fail : Bool) (rc : Int) : Bool :=
  if should_fail then decide (int_neg rc = EINVAL) else assert_return_code (int_neg rc) rc

/-- The assertions of `scsi_logs_check` on the fields of the log entry
`logs[0]`: both families are tape, the names are those given, the cause is
`PHO_DEVICE_LOAD`, and the error number is `EINVAL` (negated) when
`should_fail`, else passes `assert_return_code`.  The error number is an `int`
and its negation is the minus of C on it (`int_neg`). -/
def scsi_logs_check_entry (should_fail : Bool) (device_name medium_name : String)
    (log : pho_log) : Bool :=
  decide (PHO_RSC_TAPE = log.medium.family) &&
  decide (PHO_RSC_TAPE = log.device.family) &&
  decide (device_name = log.device.name) &&
  decide (medium_name = log.medium.name) &&
  decide (PHO_DEVICE_LOAD = log.cause) &&
  (if should_fail then decide (EINVAL = int_neg log.error_number)
   else assert_return_code (int_neg log.error_number) log.error_number)

/-! ## The load of a medium into a drive (`dev_load`) -/

/-- Value of `EIO` in `errno.h`. -/
def EIO_value : Int := 5

/-- Request `SG_IO` of `scsi/sg.h`. -/
def sg_io_request : Nat := 0x2285

/-- Modelled from the spec: the command the device adapter issues for each kind
of operation (the adapter is not among the sources).  The commands are those
`op_to_mock` tells the kinds by: `MODE_SENSE`, `READ_ELEMENT_STATUS` with
element types 1 to 4, `MOVE_MEDIUM`. -/
def scsi_command (op : scsi_operation_type) : sg_io_hdr :=
  match op with
  | LIBRARY_LOAD =>
    { cmd_code := MODE_SENSE, element_type_code := 0, masked_status := GOOD, sense_key := 0 }
  | ARMS_STATUS =>
    { cmd_code := READ_ELEMENT_STATUS, element_type_code := 1, masked_status := GOOD,
      sense_key := 0 }
  | SLOTS_STATUS =>
    { cmd_code := READ_ELEMENT_STATUS, element_type_code := 2, masked_status := GOOD,
      sense_key := 0 }
  | IMPEXP_STATUS =>
    { cmd_code := READ_ELEMENT_STATUS, element_type_code := 3, masked_status := GOOD,
      sense_key := 0 }
  | DRIVES_STATUS =>
    { cmd_code := READ_ELEMENT_STATUS, element_type_code := 4, masked_status := GOOD,
      sense_key := 0 }
  | LOAD_MEDIUM =>
    { cmd_code := MOVE_MEDIUM, element_type_code := 0, masked_status := GOOD, sense_key := 0 }

/-- Modelled from the spec: the device adapter "returns an OS-style signed error
code" (the adapter is not among the sources).  A non-zero return of the
`ioctl` is that code; masked status `CHECK_CONDITION` with sense key
`ILLEGAL_REQUEST` is the "`EINVAL`-class adapter error" (in `mock_ioctl`: "This
combination of masked_status and sense_key will lead to an EINVAL, code 22");
status `GOOD` is success; any other status is a fault, reported as `-EIO`. -/
def scsi_error_code (r : Int) (hdr : sg_io_hdr) : Int :=
  if r ≠ 0 then r
  else if hdr.masked_status = CHECK_CONDITION ∧ hdr.sense_key = SPC_SK_ILLEGAL_REQUEST then
    -EINVAL
  else if hdr.masked_status = GOOD then 0
  else -EIO_value

/-- Modelled from the spec: one command of the device adapter, sent through the
`ioctl` hook on the descriptor `fd` of the library; the result is its error
code and the state of the world after it, or `none` when the hook aborts. -/
def scsi_execute {W : Type} (io : ioctl_hook W) (fd : Int) (op : scsi_operation_type)
    (w : W) : Option (Int × W) :=
  match io w fd sg_io_request (scsi_command op) with
  | none => none
  | some (r, hdr, w1) => some (scsi_error_code r hdr, w1)

/-- Modelled from the spec: the lookup of the medium in the library, which runs
the commands of the kinds given in order and stops at the first error. -/
def scsi_lookup {W : Type} (io : ioctl_hook W) (fd : Int) :
    List scsi_operation_type → W → Option (Int × W)
  | [], w => some (0, w)
  | op :: ops, w =>
    match scsi_execute io fd op w with
    | none => none
    | some (rc, w1) => if rc ≠ 0 then some (rc, w1) else scsi_lookup io fd ops w1

/-- Modelled from the spec: the move of the medium, "handling the documented
`EINVAL`-class adapter error by retrying the move at most once and otherwise
reporting a terminal `DeviceFault`". -/
def scsi_move {W : Type} (io : ioctl_hook W) (fd : Int) (w : W) : Option (Int × W) :=
  match scsi_execute io fd LOAD_MEDIUM w with
  | none => none
  | some (rc, w1) => if rc = -EINVAL then scsi_execute io fd LOAD_MEDIUM w1 else some (rc, w1)

/-- The kinds of operation of the lookup, in the order of the enumeration. -/
def lookup_operations : List scsi_operation_type :=
  [LIBRARY_LOAD, ARMS_STATUS, SLOTS_STATUS, IMPEXP_STATUS, DRIVES_STATUS]

/-- Modelled from the spec: `dev_load` is called by the test and its body
(`lrs_device.c`) is not among the sources.  The worker "loads the target medium
via the device adapter, handling the documented `EINVAL`-class adapter error by
retrying the move at most once and otherwise reporting a terminal
`DeviceFault`"; the action "is logged with the resource identity, the
triggering cause, and the underlying adapter error code", the log holding
"exactly one entry per physical action attempted, success or failure"; a
failure "is both returned as a status code and recorded as a structured log
entry".  One call is one action, the load: the lookup of the medium in the
library, then the move.  The result is the returned code, the log table and
the state of the world, or `none` when the `ioctl` hook aborts the test. -/
def dev_load {W : Type} (io : ioctl_hook W) (fd : Int) (dev : lrs_dev) (medium : media_info)
    (logs : List pho_log) (w : W) : Option (Int × List pho_log × W) :=
  let entry (rc : Int) : pho_log :=
    { device := dev.rsc_id, medium := medium.rsc_id, error_number := rc,
      cause := PHO_DEVICE_LOAD }
  match scsi_lookup io fd lookup_operations w with
  | none => none
  | some (rc, w1) =>
    if rc ≠ 0 then some (rc, logs ++ [entry rc], w1)
    else
      match scsi_move io fd w1 with
      | none => none
      | some (rc2, w2) => some (rc2, logs ++ [entry rc2], w2)

/-- The enumeration `enum pho_xfer_op`. -/
inductive pho_xfer_op where
  | PHO_XFER_OP_PUT
  | PHO_XFER_OP_GET
  | PHO_XFER_OP_GETMD
  deriving DecidableEq, Repr

open pho_xfer_op

/-- The record `struct pho_xfer_desc`; attributes are pairs of key and value,
tags are strings, flags are a bit mask. -/
structure pho_xfer_desc where
  xd_objid : Option String
  xd_op : pho_xfer_op
  xd_fd : Int
  xd_size : Int
  xd_layout_name : Option String
  xd_family : rsc_family
  xd_attrs : List (String × String)
  xd_flags : Nat
  xd_tags : List String
  xd_rc : Int
  deriving DecidableEq, Repr

/-- A completion callback `pho_completion_cb_t`: called with the user data,
the descriptor and the return code of the operation, it acts on the user
data `U`. -/
abbrev pho_completion_cb_t (U : Type) := U → pho_xfer_desc → Int → U

/-- Modelled from the spec: the loop of a batch operation over its transfers
(the bodies of `phobos_put`, `phobos_get` and `phobos_getmd` are not among the
sources).  "Individual completion notifications are issued via xd_callback.
This function returns the first encountered error or 0 if all sub-operations
have succeeded."; the batch "continues processing remaining transfers and
reports the first error as the batch return code while still invoking per-item
completion callbacks for every transfer".  `sub_op` is the operation on one
transfer, giving its return code (`0` on success, negated errno on failure);
`rc` is the code of the batch so far. -/
def phobos_xfer {U : Type} (sub_op : pho_xfer_desc → Int) (cb : pho_completion_cb_t U) :
    List pho_xfer_desc → Int → U → Int × U
  | [], rc, udata => (rc, udata)
  | xfer :: xfers, rc, udata =>
    let rc_xfer := sub_op xfer
    let udata1 := cb udata xfer rc_xfer
    phobos_xfer sub_op cb xfers (if rc = 0 then rc_xfer else rc) udata1

/-- Modelled from the spec: `phobos_put` (declared in `phobos_store.h`), the
batch loop with the put of one transfer as sub-operation. -/
def phobos_put {U : Type} (sub_op : pho_xfer_op → pho_xfer_desc → Int)
    (xfers : List pho_xfer_desc) (cb : pho_completion_cb_t U) (udata : U) : Int × U :=
  phobos_xfer (sub_op PHO_XFER_OP_PUT) cb xfers 0 udata

/-- Modelled from the spec: `phobos_get` (declared in `phobos_store.h`), the
batch loop with the get of one transfer as sub-operation. -/
def phobos_get {U : Type} (sub_op : pho_xfer_op → pho_xfer_desc → Int)
    (xfers : List pho_xfer_desc) (cb : pho_completion_cb_t U) (udata : U) : Int × U :=
  phobos_xfer (sub_op PHO_XFER_OP_GET) cb xfers 0 udata

/-- Modelled from the spec: `phobos_getmd` (declared in `phobos_store.h`), the
batch loop with the retrieval of the metadata of one transfer as
sub-operation. -/
def phobos_getmd {U : Type} (sub_op : pho_xfer_op → pho_xfer_desc → Int)
    (xfers : List pho_xfer_desc) (cb : pho_completion_cb_t U) (udata : U) : Int × U :=
  phobos_xfer (sub_op PHO_XFER_OP_GETMD) cb xfers 0 udata

/-- The callback that records its calls: the user data is the list of the
pairs of descriptor and return code it was called with, oldest first. -/
def record_cb : pho_completion_cb_t (List (pho_xfer_desc × Int)) :=
  fun udata xfer rc => udata ++ [(xfer, rc)]

/-- The first error of a list of return codes, `0` when there is none. -/
def first_error (rcs : List Int) : Int :=
  match rcs.find? (fun rc => rc != 0) with
  | none => 0
  | some rc => rc

/-- The batch operation of a kind: `phobos_put`, `phobos_get` or
`phobos_getmd`. -/
def phobos_batch {U : Type} (op : pho_xfer_op) (sub_op : pho_xfer_op → pho_xfer_desc → Int)
    (xfers : List pho_xfer_desc) (cb : pho_completion_cb_t U) (udata : U) : Int × U :=
  match op with
  | PHO_XFER_OP_PUT => phobos_put sub_op xfers cb udata
  | PHO_XFER_OP_GET => phobos_get sub_op xfers cb udata
  | PHO_XFER_OP_GETMD => phobos_getmd sub_op xfers cb udata

/-! ## Sample inputs -/

/-- A step operation: it stores one request in the output slots and returns
`0` for a null response, `1` otherwise. -/
def sample_step : step_fn :=
  fun m _enc resp reqs n_reqs =>
    (if resp = NULL then 0 else 1,
     { m with
       req_cells := fun p => if p = reqs then some 40 else m.req_cells p,
       size_cells := fun p => if p = n_reqs then some 1 else m.size_cells p })

/-- Code with `sample_step` at address 7. -/
def sample_code : Code :=
  fun p => if p = 7 then some sample_step else none

/-- A memory with one encoder at address 1, whose operation vector is at
address 5, and two output cells at addresses 2 and 3. -/
def sample_memory (done : Bool) : Memory :=
  { encoders := fun p =>
      if p = 1 then
        some { priv_enc := 0, ops := 5, type := PHO_ENC_ENCODER, done := done, xfer := 9,
               layout := 0, io_block_size := 0, last_resp := 0 }
      else none,
    ops_vectors := fun p => if p = 5 then some { step := 7, destroy := 8 } else none,
    req_cells := fun p => if p = 2 then some 0 else none,
    size_cells := fun p => if p = 3 then some 0 else none }

/-- The encoder of `sample_memory`. -/
def sample_encoder (done : Bool) : pho_encoder :=
  { priv_enc := 0, ops := 5, type := PHO_ENC_ENCODER, done := done, xfer := 9,
    layout := 0, io_block_size := 0, last_resp := 0 }

/-- A search of the configuration that finds nothing. -/
def cfg_not_found : cfg_get_val_fn :=
  fun _ _ => (-ENODATA, none)

/-- The hook answers every command of a load, in every state of the world:
it never aborts the test. -/
def never_aborts {W : Type} (io : ioctl_hook W) (fd : Int) : Prop :=
  ∀ op w, ∃ r hdr w1, io w fd sg_io_request (scsi_command op) = some (r, hdr, w1)

/-- The log entry of a load of `medium` into `dev` that ended with `rc`. -/
def load_entry (dev : lrs_dev) (medium : media_info) (rc : Int) : pho_log :=
  { device := dev.rsc_id, medium := medium.rsc_id, error_number := rc,
    cause := PHO_DEVICE_LOAD }

/-- Function `encoder_type2str`: the `switch` on `enc->type`, with its
`default` case. -/
def encoder_type2str (enc : pho_encoder) : String :=
  if enc.type = PHO_ENC_ENCODER then "encoder"
  else if enc.type = PHO_ENC_DECODER then "decoder"
  else if enc.type = PHO_ENC_ERASER then "eraser encoder"
  else "unknow"

/-- A header is accepted by `get_op_params` when its opcode is one of
`READ_ELEMENT_STATUS`, `MODE_SENSE`, `MOVE_MEDIUM`: the test is not aborted. -/
def accepted_opcode (hdr : sg_io_hdr) : Prop :=
  hdr.cmd_code = READ_ELEMENT_STATUS ∨ hdr.cmd_code = MODE_SENSE ∨ hdr.cmd_code = MOVE_MEDIUM

/-- A real `ioctl` that fails every command with `-1` and leaves the header as
it is; the state of the world counts the calls. -/
def failing_ioctl : ioctl_fn Nat :=
  fun w _fd _request hdr => (-1, hdr, w + 1)

/-- A memory with one encoder at address 1 that is done and has no operation
vector. -/
def bare_memory : Memory :=
  { encoders := fun p =>
      if p = 1 then
        some { priv_enc := 0, ops := NULL, type := PHO_ENC_DECODER, done := true, xfer := 9,
               layout := 6, io_block_size := 0, last_resp := 0 }
      else none,
    ops_vectors := fun _ => none,
    req_cells := fun p => if p = 2 then some 0 else none,
    size_cells := fun p => if p = 3 then some 0 else none }

/-- The encoder of `bare_memory`. -/
def bare_encoder : pho_encoder :=
  { priv_enc := 0, ops := NULL, type := PHO_ENC_DECODER, done := true, xfer := 9,
    layout := 6, io_block_size := 0, last_resp := 0 }

/-- A lookup of the configuration that fails. -/
def cfg_get_null : cfg_get_fn :=
  fun _ _ _ _ => none

/-! ## The kinds of operation of a transfer -/

/-- The kinds of operation of a transfer as the specification lists them:
"operation kind {Put, Get, GetMetadata, Delete}". -/
inductive spec_xfer_kind where
  | Put
  | Get
  | GetMetadata
  | Delete
  deriving DecidableEq, Repr, Fintype

deriving instance Fintype for pho_xfer_op

/-- The value of `enum pho_xfer_op` for a kind of the specification, when the
enumeration has one: `PHO_XFER_OP_PUT` ("Put operation"), `PHO_XFER_OP_GET`
("Get operation"), `PHO_XFER_OP_GETMD` ("Get metadata operation"). -/
def xfer_op_of_kind : spec_xfer_kind → Option pho_xfer_op
  | .Put => some PHO_XFER_OP_PUT
  | .Get => some PHO_XFER_OP_GET
  | .GetMetadata => some PHO_XFER_OP_GETMD
  | .Delete => none

/-! ## The location of an object (`layout_locate`) -/

/-- Value of `ENODEV` in `errno.h`. -/
def ENODEV : Int := 19

/-- Value of `EAGAIN` in `errno.h`. -/
def EAGAIN : Int := 11

/-- Value of `EADDRNOTAVAIL` in `errno.h`. -/
def EADDRNOTAVAIL : Int := 99

/-- Modelled from the spec: an extent, "a contiguous byte range of an object
stored on one medium" (`struct extent` is declared in a header that is not
among the sources): its medium, offset and size. -/
structure extent where
  media : pho_id
  offset : Nat
  size : Nat
  deriving DecidableEq, Repr

/-- Modelled from the spec: a layout, "the ordered set of extents describing
where an object's data lives" (`struct layout_info` is declared in a header
that is not among the sources), with the object and the name of the layout
module. -/
structure layout_info where
  oid : String
  layout_name : String
  extents : List extent
  deriving DecidableEq, Repr

/-- Modelled from the spec: what the catalog tells of the lock of a medium
("get with lock-state"): `none` for a medium the catalog does not hold,
`some none` for a medium that is not locked, `some (some h)` for a medium
locked by the host `h`. -/
structure dss_handle where
  media_lock : pho_id → Option (Option String)

/-- The lock states of the media that back a layout and exist in the catalog,
in the order of the extents. -/
def candidate_media (dss : dss_handle) (layout : layout_info) : List (Option String) :=
  layout.extents.filterMap (fun e => dss.media_lock e.media)

/-- The lock of a medium is held by a host other than `h`: the medium is
locked elsewhere, as seen from `h`. -/
def locked_elsewhere (h : String) (lock : Option String) : Bool :=
  match lock with
  | none => false
  | some h1 => h1 != h

/-- Modelled from the spec: `layout_locate` is declared in `pho_layout.h` and its
body is not among the sources.  It is the "read-only resolution of which host
currently has convenient (already-mounted, lock-free-to-acquire) access to an
object's media", which "returns `NoDevice` if no medium backing the layout
exists, `Retryable` if all candidate media are currently locked elsewhere".
The header documents `-ENODEV` "if there is no existing medium to retrieve
this layout", `-EINVAL` "on invalid replica count or invalid layout name",
`-EAGAIN` "if there is currently no convenient node to retrieve this layout",
`-EADDRNOTAVAIL` "if we cannot get self hostname", and a hostname that is
"NULL if an error occurs"; "if NULL, focus_host is set to local hostname".

The candidate media are the media of the extents that the catalog holds.  A
candidate is free to acquire for the focus host when it is not locked or is
locked by that host; the focus host is returned when a candidate is free for
it.  `layout_valid` tells whether replica count and layout name are valid;
`self_hostname` is the local hostname when it can be had.  The result is the
returned code and `*hostname`. -/
def layout_locate (layout_valid : layout_info → Bool) (self_hostname : Option String)
    (dss : dss_handle) (layout : layout_info) (focus_host : Option String) :
    Int × Option String :=
  if (candidate_media dss layout).isEmpty then (-ENODEV, none)
  else if !layout_valid layout then (-EINVAL, none)
  else
    match focus_host.orElse (fun _ => self_hostname) with
    | none => (-EADDRNOTAVAIL, none)
    | some h =>
      if (candidate_media dss layout).all (locked_elsewhere h) then (-EAGAIN, none)
      else (0, some h)

/-- A layout of two extents on the tapes `P00001L5` and `P00002L5`. -/
def two_tape_layout : layout_info :=
  { oid := "o1", layout_name := "raid1",
    extents := [{ media := { family := PHO_RSC_TAPE, name := "P00001L5" }, offset := 0,
                  size := 600 },
                { media := { family := PHO_RSC_TAPE, name := "P00002L5" }, offset := 0,
                  size := 400 }] }

/-- A catalog in which `P00001L5` is locked by `host_a` and `P00002L5` by
`host_b`. -/
def split_locks : dss_handle :=
  { media_lock := fun id =>
      if id = { family := PHO_RSC_TAPE, name := "P00001L5" } then some (some "host_a")
      else if id = { family := PHO_RSC_TAPE, name := "P00002L5" } then some (some "host_b")
      else none }

/-- A catalog without any medium. -/
def empty_catalog : dss_handle :=
  { media_lock := fun _ => none }

/-! ## The life of an encoder: constructors and `layout_destroy` -/

/-- The memory with the encoder at address `p` replaced by `e`. -/
def Memory.set_encoder (m : Memory) (p : Ptr) (e : pho_encoder) : Memory :=
  { m with encoders := fun q => if q = p then some e else m.encoders q }

/-- Modelled from the spec: the resources the constructors and `layout_destroy`
act on, next to the memory: the encoders in use (initialised and not
destroyed), the layouts in memory, which of them are committed to the catalog,
the locks each response grants, the locks held, and the logs of the locks
released and of the layouts freed, oldest first. -/
structure layout_world where
  mem : Memory
  live : List Ptr
  layouts : Ptr → Option layout_info
  committed : Ptr → Bool
  granted : Ptr → List pho_id
  locks : List pho_id
  released : List pho_id
  freed : List Ptr

/-- The encoder at address `p` works on the transfer at address `xfer`. -/
def handles (w : layout_world) (p xfer : Ptr) : Bool :=
  match w.mem.enc_at p with
  | some e => e.xfer == xfer
  | none => false

/-- The transfer is bound to an encoder in use other than `enc`. -/
def xfer_bound_elsewhere (w : layout_world) (enc xfer : Ptr) : Bool :=
  w.live.any (fun p => p != enc && handles w p xfer)

/-- The layout at an address is present and well formed. -/
def layout_usable (layout_valid : layout_info → Bool) (w : layout_world) (layout : Ptr) :
    Bool :=
  match (if layout = NULL then none else w.layouts layout) with
  | none => false
  | some l => layout_valid l

/-- Initialisation of the encoder at `enc`: not done, bound to `xfer`, with the
layout, the operation vector and the type given, and without response; the
encoder is in use from then on. -/
def layout_init (w : layout_world) (enc xfer layout ops : Ptr) (type : Int) : layout_world :=
  { w with
    mem := w.mem.set_encoder enc
      { priv_enc := NULL, ops := ops, type := type, done := false, xfer := xfer,
        layout := layout, io_block_size := 0, last_resp := NULL },
    live := enc :: w.live.filter (fun p => p != enc) }

/-- Modelled from the spec: `layout_encode` is declared in `pho_layout.h` and its
body is not among the sources.  "A xfer may only be handled by one encoder";
the constructors "fail with `InvalidArgument` if the transfer is already bound
to another Encoder or if `layout` is required but absent/malformed".  `ops` is
the operation vector of the layout module.  Errors of other kinds are left
out. -/
def layout_encode (ops : Ptr) (w : layout_world) (enc xfer : Ptr) : Int × layout_world :=
  if xfer_bound_elsewhere w enc xfer then (-EINVAL, w)
  else (0, layout_init w enc xfer NULL ops PHO_ENC_ENCODER)

/-- Modelled from the spec: `layout_decode` is declared in `pho_layout.h` and its
body is not among the sources.  It fails "with `InvalidArgument` if the
transfer is already bound to another Encoder or if `layout` is required but
absent/malformed"; the layout "is used in-place by the decoder".
`layout_valid` tells the well formed layouts. -/
def layout_decode (layout_valid : layout_info → Bool) (ops : Ptr) (w : layout_world)
    (dec xfer layout : Ptr) : Int × layout_world :=
  if xfer_bound_elsewhere w dec xfer then (-EINVAL, w)
  else if !layout_usable layout_valid w layout then (-EINVAL, w)
  else (0, layout_init w dec xfer layout ops PHO_ENC_DECODER)

/-- Modelled from the spec: `layout_delete` is declared in `pho_layout.h` and its
body is not among the sources.  It fails "with `InvalidArgument` if the
transfer is already bound to another Encoder or if `layout` is required but
absent/malformed"; the layout "is used in-place by the decoder". -/
def layout_delete (layout_valid : layout_info → Bool) (ops : Ptr) (w : layout_world)
    (dec xfer layout : Ptr) : Int × layout_world :=
  if xfer_bound_elsewhere w dec xfer then (-EINVAL, w)
  else if !layout_usable layout_valid w layout then (-EINVAL, w)
  else (0, layout_init w dec xfer layout ops PHO_ENC_ERASER)

/-- Every transfer is handled by at most one encoder in use. -/
def single_handler (w : layout_world) : Prop :=
  ∀ p ∈ w.live, ∀ q ∈ w.live, ∀ xfer,
    handles w p xfer = true → handles w q xfer = true → p = q

/-- Modelled from the spec: `layout_destroy` is declared in `pho_layout.h`
("Destroy this encoder or decoder and all associated resources") and its body
is not among the sources.  It "releases all locks still held via outstanding
responses and frees owned Layout memory not yet committed to the catalog;
idempotent".  The outstanding response of an encoder is its `last_resp`; an
encoder of type `PHO_ENC_ENCODER` owns its layout, while the layout of a
decoder "must be freed separately by the caller after the decoder is
destroyed".  The encoder is left without response, without owned layout, and
out of use. -/
def layout_destroy (w : layout_world) (enc : Ptr) : layout_world :=
  match w.mem.enc_at enc with
  | none => w
  | some e =>
    let held := if e.last_resp = NULL then [] else w.granted e.last_resp
    let owned := is_encoder e && decide (e.layout ≠ NULL) && !w.committed e.layout
    { mem := w.mem.set_encoder enc
        { e with last_resp := NULL, layout := if owned then NULL else e.layout },
      live := w.live.filter (fun p => p != enc),
      layouts := fun p => if owned && decide (p = e.layout) then none else w.layouts p,
      committed := w.committed,
      granted := w.granted,
      locks := w.locks.filter (fun id => !held.contains id),
      released := w.released ++ held,
      freed := if owned then w.freed ++ [e.layout] else w.freed }

/-- A world without encoder, layout or lock. -/
def empty_world : layout_world :=
  { mem := { encoders := fun _ => none, ops_vectors := fun _ => none,
             req_cells := fun _ => none, size_cells := fun _ => none },
    live := [], layouts := fun _ => none, committed := fun _ => false,
    granted := fun _ => [], locks := [], released := [], freed := [] }

/-- A world with one encoder in use at address 1: it owns the layout at
address 6, not committed, and its last response, at address 4, grants the lock
of the tape `P00001L5`. -/
def writing_world : layout_world :=
  { mem := { encoders := fun p =>
               if p = 1 then
                 some { priv_enc := 0, ops := 5, type := PHO_ENC_ENCODER, done := true,
                        xfer := 9, layout := 6, io_block_size := 0, last_resp := 4 }
               else none,
             ops_vectors := fun _ => none,
             req_cells := fun _ => none, size_cells := fun _ => none },
    live := [1],
    layouts := fun p => if p = 6 then some two_tape_layout else none,
    committed := fun _ => false,
    granted := fun p => if p = 4 then [{ family := PHO_RSC_TAPE, name := "P00001L5" }] else [],
    locks := [{ family := PHO_RSC_TAPE, name := "P00001L5" }],
    released := [], freed := [] }

/-- The world after `layout_encode` has bound the transfer at address 9 to the
encoder at address 1. -/
def bound_world : layout_world :=
  (layout_encode 5 empty_world 1 9).2

/-! ## test_scsi_logs.c: JSON values (jansson) -/

/-- A JSON value of jansson (`json_t`), real numbers apart: the test handles
strings, integers, objects and the array of the library scan.  An object is
the list of its members, in the order in which the keys were set. -/
inductive json_t where
  | null
  | boolean (b : Bool)
  | integer (v : Int)
  | string (s : String)
  | array (items : List json_t)
  | object (members : List (String × json_t))
  deriving Repr

/-- The value of a key among the members of an object. -/
def members_get (members : List (String × json_t)) (key : String) : Option json_t :=
  (members.find? (fun m => m.1 == key)).map (fun m => m.2)

/-- Function `json_object_get` of jansson: the value of the key, `NULL` when the
key is absent or the value is not an object. -/
def json_object_get (json : json_t) (key : String) : Option json_t :=
  match json with
  | .object members => members_get members key
  | _ => none

/-- Function `json_object_set_new` of jansson: the object with the key set to
the value, the former value of the key being replaced.  The result is `none`
when jansson returns `-1`: the value is `NULL` or `json` is not an object. -/
def json_object_set_new (json : json_t) (key : String) (value : Option json_t) :
    Option json_t :=
  match json, value with
  | .object members, some v =>
    if members.any (fun m => m.1 == key) then
      some (.object (members.map (fun m => if m.1 == key then (key, v) else m)))
    else some (.object (members ++ [(key, v)]))
  | _, _ => none

/-- Function `json_string` of jansson, on a `char *` that may be `NULL`. -/
def json_string (value : Option String) : Option json_t :=
  value.map json_t.string

/-- Function `json_string_value` of jansson: the string, `NULL` for a value
that is not a string. -/
def json_string_value (json : Option json_t) : Option String :=
  match json with
  | some (.string s) => some s
  | _ => none

/-- Function `json_integer_value` of jansson: the integer, `0` for `NULL` and
for a value that is not an integer. -/
def json_integer_value (json : Option json_t) : Int :=
  match json with
  | some (.integer v) => v
  | _ => 0

mutual
/-- Function `json_equal` of jansson: same type and same content; two objects
are equal when they have as many members and every key of the first has an
equal value in the second. -/
def json_equal : json_t → json_t → Bool
  | .null, .null => true
  | .boolean a, .boolean b => a == b
  | .integer a, .integer b => a == b
  | .string a, .string b => a == b
  | .array xs, .array ys => json_equal_array xs ys
  | .object ms, .object ns => ms.length == ns.length && json_equal_members ms ns
  | _, _ => false
/-- Equality of two arrays, item by item. -/
def json_equal_array : List json_t → List json_t → Bool
  | [], [] => true
  | x :: xs, y :: ys => json_equal x y && json_equal_array xs ys
  | _, _ => false
/-- Every member of the first list has an equal value in the second. -/
def json_equal_members : List (String × json_t) → List (String × json_t) → Bool
  | [], _ => true
  | (k, v) :: ms, ns =>
    (match members_get ns k with
     | some v1 => json_equal v v1
     | none => false) && json_equal_members ms ns
end

/-- The items a `json_array_foreach` runs over: those of an array, none for
another value. -/
def json_array_items (json : json_t) : List json_t :=
  match json with
  | .array items => items
  | _ => []

/-! ## test_scsi_logs.c: the expected log message -/

/-- Function `check_item_type`: whether the member `type` of the item equals the
JSON string `rsc`; `none` when the item has no member `type`
(`assert_non_null` aborts the test). -/
def check_item_type (item : json_t) (rsc : String) : Option Bool :=
  match json_object_get item "type" with
  | none => none
  | some type =>
    match json_string (some rsc) with
    | none => none
    | some rsc_str => some (json_equal type rsc_str)

/-- The conversion `%#hx` of `printf`: the low 16 bits of the integer in
hexadecimal, with `0x` in front unless the value is zero. -/
def format_hx (v : Int) : String :=
  let n := (v % 65536).toNat
  if n = 0 then "0" else "0x" ++ String.mk (Nat.toDigits 16 n)

/-- The string `asprintf` makes of an integer with `JSON_INTEGER_FORMAT`: its
decimal writing. -/
def format_integer (v : Int) : String :=
  toString v

/-- Function `get_arm_load_address`: the address of the item, in decimal. -/
def get_arm_load_address (item : json_t) : String :=
  format_integer (json_integer_value (json_object_get item "address"))

/-- Function `get_slot_load_address`.  `medium_address` is what `*medium_address`
holds before the call; the result is what it holds after the call, inside
`some`, or `none` when the test is aborted: the item has no member `volume`,
or the volume is not a string (`strcmp` on `NULL`).  The address is written
through `atoi` of its decimal writing and `%#hx`. -/
def get_slot_load_address (item : json_t) (medium_address : Option String)
    (medium_name : String) : Option (Option String) :=
  match json_object_get item "volume" with
  | none => none
  | some volume =>
    match json_string_value (some volume) with
    | none => none
    | some v =>
      if v ≠ medium_name then some medium_address
      else some (some (format_hx (json_integer_value (json_object_get item "address"))))

/-- The string `needle` starts the string `hay`. -/
def starts_with : List Char → List Char → Bool
  | _, [] => true
  | [], _ :: _ => false
  | c :: hay, d :: needle => c == d && starts_with hay needle

/-- Function `strstr` of the C library, as far as its result is compared with
`NULL`: whether `needle` occurs in `hay`. -/
def strstr : List Char → List Char → Bool
  | [], needle => needle.isEmpty
  | c :: hay, needle => starts_with (c :: hay) needle || strstr hay needle

/-- Function `get_drive_load_address`.  `serial` is what `get_serial_from_path`
stores for the device name, `none` when one of its assertions fails;
`device_address` is what `*device_address` holds before the call.  The result
is what it holds after the call, inside `some`, or `none` when the test is
aborted: the item has no member `device_id`, the serial cannot be had, or the
identifier is not a string (`strstr` on `NULL`). -/
def get_drive_load_address (item : json_t) (device_address : Option String)
    (serial : Option String) : Option (Option String) :=
  match json_object_get item "device_id" with
  | none => none
  | some id =>
    match serial with
    | none => none
    | some serial =>
      match json_string_value (some id) with
      | none => none
      | some id_str =>
        if strstr id_str.toList serial.toList then
          some (some (format_hx (json_integer_value (json_object_get item "address"))))
        else some device_address

/-- The three addresses `get_load_addresses` fills: the `char *` variables
`arm_address`, `medium_address` and `device_address` of `create_log_message`,
`none` while nothing was stored in them. -/
structure load_addresses where
  arm_address : Option String
  medium_address : Option String
  device_address : Option String
  deriving DecidableEq, Repr

/-- Function `get_load_addresses`: according to the member `type` of the item,
the address of the arm, of the slot of the medium, or of the drive; `none`
when the test is aborted (no member `type`, a type that is not a string, or
an abort of the function called). -/
def get_load_addresses (item : json_t) (a : load_addresses) (medium_name : String)
    (serial : Option String) : Option load_addresses :=
  match json_object_get item "type" with
  | none => none
  | some json_type =>
    match json_string_value (some json_type) with
    | none => none
    | some type =>
      if type = "arm" then some { a with arm_address := some (get_arm_load_address item) }
      else if type = "slot" then
        (get_slot_load_address item a.medium_address medium_name).map
          (fun m => { a with medium_address := m })
      else if type = "drive" then
        (get_drive_load_address item a.device_address serial).map
          (fun d => { a with device_address := d })
      else some a

/-- Modelled from the spec: the values of `enum scsi_operation_type`, which
`scsi_api.h` declares and which is not among the sources: the kinds numbered
from `0` in the order in which `op_to_mock` and `create_log_message` list
them, `LIBRARY_LOAD` first. -/
def scsi_operation_type.value : scsi_operation_type → Int
  | LIBRARY_LOAD => 0
  | ARMS_STATUS => 1
  | SLOTS_STATUS => 2
  | IMPEXP_STATUS => 3
  | DRIVES_STATUS => 4
  | LOAD_MEDIUM => 5

/-- The local variables of `create_log_message` that its loop over the library
scan updates: the four counters and the three addresses. -/
structure scan_state where
  arms_nb : Int
  slots_nb : Int
  impexp_nb : Int
  drives_nb : Int
  addresses : load_addresses
  deriving DecidableEq, Repr

/-- One turn of the `json_array_foreach` loop of `create_log_message`: the
`switch` on `op` for one item of the scan; `none` when the test is aborted. -/
def scan_item (op : scsi_operation_type) (medium_name : String) (serial : Option String)
    (s : scan_state) (value : json_t) : Option scan_state :=
  match op with
  | ARMS_STATUS =>
    (check_item_type value "arm").map
      (fun b => { s with arms_nb := s.arms_nb + (if b then 1 else 0) })
  | SLOTS_STATUS =>
    (check_item_type value "slot").map
      (fun b => { s with slots_nb := s.slots_nb + (if b then 1 else 0) })
  | IMPEXP_STATUS =>
    (check_item_type value "import/export").map
      (fun b => { s with impexp_nb := s.impexp_nb + (if b then 1 else 0) })
  | DRIVES_STATUS =>
    (check_item_type value "drive").map
      (fun b => { s with drives_nb := s.drives_nb + (if b then 1 else 0) })
  | LOAD_MEDIUM =>
    (get_load_addresses value s.addresses medium_name serial).map
      (fun a => { s with addresses := a })
  | LIBRARY_LOAD => none

/-- The `json_array_foreach` loop of `create_log_message` over the items of the
scan, in order. -/
def scan_loop (op : scsi_operation_type) (medium_name : String) (serial : Option String) :
    scan_state → List json_t → Option scan_state
  | s, [] => some s
  | s, value :: values =>
    match scan_item op medium_name serial s value with
    | none => none
    | some s1 => scan_loop op medium_name serial s1 values

/-- The object `json_loads` makes of the text of the SCSI error in
`create_log_message`. -/
def scsi_error_json : json_t :=
  .object
    [("asc", .integer 0),
     ("ascq", .integer 0),
     ("sense_key", .integer 5),
     ("asc_ascq_str", .string "Additional sense: No additional sense information"),
     ("driver_status", .integer 0),
     ("sense_key_str", .string "Illegal Request"),
     ("adapter_status", .integer 0),
     ("req_sense_error", .integer 0),
     ("scsi_masked_status", .integer 1)]

/-- The members `create_log_message` adds to `scsi_execute` in its second
`switch` on `op`; `none` when a `json_object_set_new` fails, which happens for
`LOAD_MEDIUM` when an address was never stored (the model takes the pointer
that was never written for `NULL`). -/
def add_operation_members (op : scsi_operation_type) (s : scan_state)
    (scsi_execute : json_t) : Option json_t :=
  match op with
  | LIBRARY_LOAD => some scsi_execute
  | ARMS_STATUS =>
    (json_object_set_new scsi_execute "Type" (json_string (some "0x1"))).bind
      (fun j => json_object_set_new j "Count" (some (.integer s.arms_nb)))
  | SLOTS_STATUS =>
    (json_object_set_new scsi_execute "Type" (json_string (some "0x2"))).bind
      (fun j => json_object_set_new j "Count" (some (.integer s.slots_nb)))
  | IMPEXP_STATUS =>
    (json_object_set_new scsi_execute "Type" (json_string (some "0x3"))).bind
      (fun j => json_object_set_new j "Count" (some (.integer s.impexp_nb)))
  | DRIVES_STATUS =>
    (json_object_set_new scsi_execute "Type" (json_string (some "0x4"))).bind
      (fun j => json_object_set_new j "Count" (some (.integer s.drives_nb)))
  | LOAD_MEDIUM =>
    ((json_object_set_new scsi_execute "Arm address"
        (json_string s.addresses.arm_address)).bind
      (fun j => json_object_set_new j "Source address"
        (json_string s.addresses.medium_address))).bind
      (fun j => json_object_set_new j "Target address"
        (json_string s.addresses.device_address))

/-- The part of `create_log_message` that fills the local variables from the
library scan: nothing is scanned for a kind outside `ARMS_STATUS ..
LOAD_MEDIUM`; `none` when the scan fails (`assert_false`) or the loop aborts
the test. -/
def scan_library (lib_scan : Int × json_t) (serial : Option String)
    (op : scsi_operation_type) (medium_name : String) : Option scan_state :=
  let s0 : scan_state :=
    { arms_nb := 0, slots_nb := 0, impexp_nb := 0, drives_nb := 0,
      addresses := { arm_address := none, medium_address := none, device_address := none } }
  if ARMS_STATUS.value ≤ op.value ∧ op.value ≤ LOAD_MEDIUM.value then
    if lib_scan.1 ≠ 0 then none
    else scan_loop op medium_name serial s0 (json_array_items lib_scan.2)
  else some s0

/-- The part of `create_log_message` that builds the object `scsi_execute`: the
member `SCSI ERROR` when `should_fail`, the member `SCSI action`, then the
members of the kind of operation. -/
def scsi_execute_object (SCSI_ACTION_NAMES : scsi_operation_type → String)
    (op : scsi_operation_type) (should_fail : Bool) (s : scan_state) : Option json_t :=
  let scsi_execute : Option json_t :=
    if should_fail then json_object_set_new (.object []) "SCSI ERROR" (some scsi_error_json)
    else some (.object [])
  let scsi_execute := scsi_execute.bind
    (fun j => json_object_set_new j "SCSI action" (json_string (some (SCSI_ACTION_NAMES op))))
  scsi_execute.bind (add_operation_members op s)

/-- Function `create_log_message`.  `SCSI_OPERATION_TYPE_NAMES` and
`SCSI_ACTION_NAMES` are the two tables of names of `scsi_api.h`; `lib_scan` is
what `phobos_admin_lib_scan` returns and stores in `lib_data`;
`get_serial_from_path` gives the serial of a device, when it can be had.  The
function runs `scan_library`, builds `scsi_execute` with `scsi_execute_object`,
and puts it in the objects `scsi_operation`, `scsi_logical_action` and, unless
the kind is `LOAD_MEDIUM`, `phobos_action`.  The result is `none` when an
assertion aborts the test. -/
def create_log_message
    (SCSI_OPERATION_TYPE_NAMES SCSI_ACTION_NAMES : scsi_operation_type → String)
    (lib_scan : Int × json_t) (get_serial_from_path : String → Option String)
    (op : scsi_operation_type) (should_fail : Bool) (medium_name device_name : String) :
    Option json_t :=
  match scan_library lib_scan (get_serial_from_path device_name) op medium_name with
  | none => none
  | some s =>
    let scsi_execute := scsi_execute_object SCSI_ACTION_NAMES op should_fail s
    let scsi_operation := scsi_execute.bind
      (fun j => json_object_set_new (.object []) "scsi_execute" (some j))
    let scsi_logical_action := scsi_operation.bind
      (fun j => json_object_set_new (.object []) (SCSI_OPERATION_TYPE_NAMES op) (some j))
    if op = LOAD_MEDIUM then scsi_logical_action
    else scsi_logical_action.bind
      (fun j => json_object_set_new (.object []) "Media lookup" (some j))

/-- The object `scsi_execute` inside a log message: under `Media lookup` unless
the kind is `LOAD_MEDIUM`, then under the name of the kind, then under
`scsi_execute`. -/
def message_scsi_execute (SCSI_OPERATION_TYPE_NAMES : scsi_operation_type → String)
    (op : scsi_operation_type) (message : json_t) : Option json_t :=
  ((if op = LOAD_MEDIUM then some message else json_object_get message "Media lookup").bind
    (fun j => json_object_get j (SCSI_OPERATION_TYPE_NAMES op))).bind
    (fun j => json_object_get j "scsi_execute")

/-- The item of a scan has a member `type` that is the JSON string `name`. -/
def item_has_type (name : String) (item : json_t) : Bool :=
  match json_object_get item "type" with
  | some (.string s) => s == name
  | _ => false

/-- The names of the kinds of operation, as a sample of the table
`SCSI_OPERATION_TYPE_NAMES`. -/
def sample_operation_names : scsi_operation_type → String
  | LIBRARY_LOAD => "Library load"
  | ARMS_STATUS => "Arms status"
  | SLOTS_STATUS => "Slots status"
  | IMPEXP_STATUS => "Import/Export status"
  | DRIVES_STATUS => "Drives status"
  | LOAD_MEDIUM => "Load medium"

/-- The names of the SCSI actions, as a sample of the table
`SCSI_ACTION_NAMES`. -/
def sample_action_names : scsi_operation_type → String
  | LIBRARY_LOAD => "Mode sense"
  | ARMS_STATUS => "Element status"
  | SLOTS_STATUS => "Element status"
  | IMPEXP_STATUS => "Element status"
  | DRIVES_STATUS => "Element status"
  | LOAD_MEDIUM => "Move medium"

/-- A library scan: one arm, two slots (the second holds `P00003L5`), one
drive. -/
def sample_scan : Int × json_t :=
  (0, .array
    [.object [("type", .string "arm"), ("address", .integer 0)],
     .object [("type", .string "slot"), ("address", .integer 1024), ("volume", .string "")],
     .object [("type", .string "slot"), ("address", .integer 1026),
              ("volume", .string "P00003L5")],
     .object [("type", .string "drive"), ("address", .integer 256),
              ("device_id", .string "IBM ULT3580-TD5 1013005381")]])

/-- The serial of `/dev/st0` in the sample library. -/
def sample_serial : String → Option String :=
  fun path => if path = "/dev/st0" then some "1013005381" else none

/-- The name of the element of a kind of element status, as the items of a
library scan spell it in their member `type`. -/
def element_name : scsi_operation_type → Option String
  | ARMS_STATUS => some "arm"
  | SLOTS_STATUS => some "slot"
  | IMPEXP_STATUS => some "import/export"
  | DRIVES_STATUS => some "drive"
  | _ => none

/-- The element type code of a kind of element status. -/
def element_type_code : scsi_operation_type → Option Nat
  | ARMS_STATUS => some 1
  | SLOTS_STATUS => some 2
  | IMPEXP_STATUS => some 3
  | DRIVES_STATUS => some 4
  | _ => none

/-- The log message around a `scsi_execute` object: under the name of the
kind, and under `Media lookup` unless the kind is `LOAD_MEDIUM`. -/
def wrapped_message (SCSI_OPERATION_TYPE_NAMES : scsi_operation_type → String)
    (op : scsi_operation_type) (scsi_execute : json_t) : json_t :=
  if op = LOAD_MEDIUM then
    .object [(SCSI_OPERATION_TYPE_NAMES op, .object [("scsi_execute", scsi_execute)])]
  else
    .object [("Media lookup",
      .object [(SCSI_OPERATION_TYPE_NAMES op, .object [("scsi_execute", scsi_execute)])])]

/-- The counter of `create_log_message` for a kind of element status:
`arms_nb`, `slots_nb`, `impexp_nb` or `drives_nb`; `0` for the other kinds,
which count nothing. -/
def element_count (op : scsi_operation_type) (s : scan_state) : Int :=
  match op with
  | ARMS_STATUS => s.arms_nb
  | SLOTS_STATUS => s.slots_nb
  | IMPEXP_STATUS => s.impexp_nb
  | DRIVES_STATUS => s.drives_nb
  | _ => 0

/-! ## Theorems: layout_step and the kinds of encoder -/

/-- C1: for every encoder whose done flag is true, for every response (null or
not) and every pair of output slots, `layout_step` returns `-EINVAL`, whatever
the operation vector, and leaves the memory as it is. -/
theorem layout_step_done (code : Code) (m : Memory) (enc resp reqs n_reqs : Ptr)
    (e : pho_encoder) (henc : m.enc_at enc = some e) (hdone : e.done = true) :
    layout_step code m enc resp reqs n_reqs = .ok (-EINVAL, m) := by
  simp [layout_step, henc, hdone]

/-- C2: for every encoder whose done flag is false and whose operation vector
provides a step operation `f`, `layout_step` returns exactly what one call of
`f` on the same four arguments returns; so does it when the response is
`NULL`. -/
theorem layout_step_forwards (code : Code) (m : Memory) (enc resp reqs n_reqs : Ptr)
    (e : pho_encoder) (o : pho_enc_ops) (f : step_fn)
    (henc : m.enc_at enc = some e) (hdone : e.done = false)
    (hops : m.ops_at e.ops = some o) (hstep : fn_at code o.step = some f) :
    layout_step code m enc resp reqs n_reqs = .ok (f m enc resp reqs n_reqs) ∧
    layout_step code m enc NULL reqs n_reqs = .ok (f m enc NULL reqs n_reqs) := by
  have h1 : enc ≠ NULL := by
    intro h
    simp [Memory.enc_at, h] at henc
  have h2 : e.ops ≠ NULL := by
    intro h
    simp [Memory.ops_at, h] at hops
  have h3 : o.step ≠ NULL := by
    intro h
    simp [fn_at, h] at hstep
  simp [layout_step, henc, hdone, hops, hstep, h1, h2, h3]

/-- C9: an encoder whose type is one of `PHO_ENC_ENCODER`, `PHO_ENC_DECODER`,
`PHO_ENC_ERASER` satisfies exactly one of `is_encoder`, `is_decoder`,
`is_delete`, and it is the predicate of its type. -/
theorem encoder_kind_exclusive (enc : pho_encoder)
    (h : enc.type = PHO_ENC_ENCODER ∨ enc.type = PHO_ENC_DECODER ∨
      enc.type = PHO_ENC_ERASER) :
    ([is_encoder enc, is_decoder enc, is_delete enc].count true = 1) ∧
    (is_encoder enc = true ↔ enc.type = PHO_ENC_ENCODER) ∧
    (is_decoder enc = true ↔ enc.type = PHO_ENC_DECODER) ∧
    (is_delete enc = true ↔ enc.type = PHO_ENC_ERASER) := by
  rcases h with h | h | h <;>
    simp [is_encoder, is_decoder, is_delete, h, PHO_ENC_ENCODER, PHO_ENC_DECODER,
      PHO_ENC_ERASER]

/-- Witness of C1: the done encoder of `sample_memory true`, stepped with a
response at address 4. -/
theorem layout_step_done_witness :
    (sample_memory true).enc_at 1 = some (sample_encoder true) ∧
    (sample_encoder true).done = true ∧
    layout_step sample_code (sample_memory true) 1 4 2 3 =
      .ok (-EINVAL, sample_memory true) :=
  ⟨rfl, rfl, layout_step_done sample_code (sample_memory true) 1 4 2 3
    (sample_encoder true) rfl rfl⟩

/-- Witness of C2: the encoder of `sample_memory false`, whose step operation
is `sample_step`. -/
theorem layout_step_forwards_witness :
    (sample_memory false).enc_at 1 = some (sample_encoder false) ∧
    (sample_encoder false).done = false ∧
    (sample_memory false).ops_at (sample_encoder false).ops =
      some { step := 7, destroy := 8 } ∧
    fn_at sample_code 7 = some sample_step ∧
    layout_step sample_code (sample_memory false) 1 4 2 3 =
      .ok (sample_step (sample_memory false) 1 4 2 3) ∧
    layout_step sample_code (sample_memory false) 1 NULL 2 3 =
      .ok (sample_step (sample_memory false) 1 NULL 2 3) :=
  ⟨rfl, rfl, rfl, rfl,
    layout_step_forwards sample_code (sample_memory false) 1 4 2 3
      (sample_encoder false) { step := 7, destroy := 8 } sample_step rfl rfl rfl rfl⟩

/-- Witness of C9: the decoder kind. -/
theorem encoder_kind_exclusive_witness :
    ([is_encoder { sample_encoder false with type := PHO_ENC_DECODER },
      is_decoder { sample_encoder false with type := PHO_ENC_DECODER },
      is_delete { sample_encoder false with type := PHO_ENC_DECODER }].count true = 1) ∧
    (is_encoder { sample_encoder false with type := PHO_ENC_DECODER } = true ↔
      ({ sample_encoder false with type := PHO_ENC_DECODER } : pho_encoder).type =
        PHO_ENC_ENCODER) ∧
    (is_decoder { sample_encoder false with type := PHO_ENC_DECODER } = true ↔
      ({ sample_encoder false with type := PHO_ENC_DECODER } : pho_encoder).type =
        PHO_ENC_DECODER) ∧
    (is_delete { sample_encoder false with type := PHO_ENC_DECODER } = true ↔
      ({ sample_encoder false with type := PHO_ENC_DECODER } : pho_encoder).type =
        PHO_ENC_ERASER) :=
  encoder_kind_exclusive { sample_encoder false with type := PHO_ENC_DECODER }
    (Or.inr (Or.inl rfl))

/-! ## Theorems: the default name of a copy -/

/-- C6: `get_cfg_default_copy_name` looks up the item of `cfg_copy` whose
section is `copy` and whose name is `default_copy_name`; when the lookup
yields a string it returns `0` and stores that string in `*copy_name`; and
it returns `-EINVAL` if and only if the lookup yields `NULL`. -/
theorem get_cfg_default_copy_name_lookup (cfg_get : cfg_get_fn) (copy_name : Option String) :
    cfg_copy.get? PHO_CFG_COPY_default_copy_name.toNat =
      some { section_name := some "copy", name := some "default_copy_name",
             value := some "source" } ∧
    (∀ s, cfg_get PHO_CFG_COPY_FIRST PHO_CFG_COPY_LAST PHO_CFG_COPY_default_copy_name
        cfg_copy = some s →
      get_cfg_default_copy_name cfg_get copy_name = (0, some s)) ∧
    ((get_cfg_default_copy_name cfg_get copy_name).1 = -EINVAL ↔
      cfg_get PHO_CFG_COPY_FIRST PHO_CFG_COPY_LAST PHO_CFG_COPY_default_copy_name
        cfg_copy = none) := by
  refine ⟨rfl, ?_, ?_⟩
  · intro s hs
    simp [get_cfg_default_copy_name, hs]
  · unfold get_cfg_default_copy_name
    cases cfg_get PHO_CFG_COPY_FIRST PHO_CFG_COPY_LAST PHO_CFG_COPY_default_copy_name
        cfg_copy with
    | none => simp
    | some s => simp [EINVAL]

/-- C7: when the search of the configuration does not find the parameter
`default_copy_name` of section `copy` (it returns `-ENODATA`), `_pho_cfg_get`
falls back on the default of the module and `get_cfg_default_copy_name`
returns `0` and yields the string `source`; and so it does with any lookup
that returns the default value of the item in `cfg_copy`. -/
theorem get_cfg_default_copy_name_default (pho_cfg_get_val : cfg_get_val_fn)
    (copy_name : Option String)
    (hnotfound : (pho_cfg_get_val "copy" "default_copy_name").1 = -ENODATA) :
    get_cfg_default_copy_name (_pho_cfg_get pho_cfg_get_val) copy_name =
      (0, some "source") ∧
    (∀ cfg_get : cfg_get_fn,
      cfg_get PHO_CFG_COPY_FIRST PHO_CFG_COPY_LAST PHO_CFG_COPY_default_copy_name cfg_copy =
        (cfg_copy.get? PHO_CFG_COPY_default_copy_name.toNat).bind (fun item => item.value) →
      get_cfg_default_copy_name cfg_get copy_name = (0, some "source")) := by
  constructor
  · simp only [get_cfg_default_copy_name, _pho_cfg_get, cfg_copy, PHO_CFG_COPY_FIRST,
      PHO_CFG_COPY_LAST, PHO_CFG_COPY_default_copy_name, DEFAULT_COPY_NAME_ATTR_KEY]
    have h61 : ¬ ENODATA = 0 := by decide
    simp [hnotfound, h61]
  · intro cfg_get hget
    have hdef : (cfg_copy.get? PHO_CFG_COPY_default_copy_name.toNat).bind
        (fun item => item.value) = some "source" := rfl
    rw [hdef] at hget
    simp [get_cfg_default_copy_name, hget]

/-- Witness of C7: a configuration in which nothing is found, the caller's
variable holding `NULL` before the call. -/
theorem get_cfg_default_copy_name_default_witness :
    (cfg_not_found "copy" "default_copy_name").1 = -ENODATA ∧
    get_cfg_default_copy_name (_pho_cfg_get cfg_not_found) none = (0, some "source") :=
  ⟨rfl, (get_cfg_default_copy_name_default cfg_not_found none rfl).1⟩

/-! ## Theorems: get_str_value -/

/-- C8: for every query result, row and column, `get_str_value` returns `NULL`
if and only if `PQgetisnull` reports the field null, and otherwise returns
what `PQgetvalue` returns; a field that is SQL NULL gives `NULL` (where
`PQgetvalue` gives the empty string), a field holding a string gives that
string, the empty string included. -/
theorem get_str_value_null_iff (res : PGresult) (row_number column_number : Int) :
    (get_str_value res row_number column_number = none ↔
      PQgetisnull res row_number column_number ≠ 0) ∧
    (PQgetisnull res row_number column_number = 0 →
      get_str_value res row_number column_number =
        PQgetvalue res row_number column_number) ∧
    (res.field row_number column_number = some none →
      get_str_value res row_number column_number = none ∧
      PQgetvalue res row_number column_number = some "") ∧
    (∀ v, res.field row_number column_number = some (some v) →
      get_str_value res row_number column_number = some v) ∧
    (res.field row_number column_number = some (some "") →
      get_str_value res row_number column_number = some "") := by
  unfold get_str_value PQgetisnull PQgetvalue
  rcases hf : res.field row_number column_number with _ | _ | v <;> simp

/-! ## Theorems: the load of a medium and its log entry -/

theorem get_op_params_scsi_command (op : scsi_operation_type) :
    get_op_params (scsi_command op) 0 =
      some ((scsi_command op).cmd_code, (scsi_command op).element_type_code) := by
  cases op <;> rfl

theorem scsi_logs_hook_never_aborts {W : Type} (ioctl : ioctl_fn W)
    (op : scsi_operation_type) (should_fail : Bool) (fd : Int) :
    never_aborts (scsi_logs_hook ioctl op should_fail) fd := by
  intro op1 w
  cases should_fail
  · exact ⟨_, _, _, rfl⟩
  · show ∃ r hdr w1,
      mock_ioctl ioctl op w fd sg_io_request (scsi_command op1) = some (r, hdr, w1)
    unfold mock_ioctl
    rw [get_op_params_scsi_command]
    dsimp only
    split
    · exact ⟨_, _, _, rfl⟩
    · exact ⟨_, _, _, rfl⟩

theorem scsi_execute_some {W : Type} (io : ioctl_hook W) (fd : Int)
    (h : never_aborts io fd) (op : scsi_operation_type) (w : W) :
    ∃ rc w1, scsi_execute io fd op w = some (rc, w1) := by
  obtain ⟨r, hdr, w1, hio⟩ := h op w
  exact ⟨scsi_error_code r hdr, w1, by simp [scsi_execute, hio]⟩

theorem scsi_lookup_some {W : Type} (io : ioctl_hook W) (fd : Int)
    (h : never_aborts io fd) (ops : List scsi_operation_type) (w : W) :
    ∃ rc w1, scsi_lookup io fd ops w = some (rc, w1) := by
  induction ops generalizing w with
  | nil => exact ⟨0, w, rfl⟩
  | cons op ops ih =>
    obtain ⟨rc, w1, hex⟩ := scsi_execute_some io fd h op w
    by_cases hrc : rc = 0
    · obtain ⟨rc2, w2, hl⟩ := ih w1
      exact ⟨rc2, w2, by simp [scsi_lookup, hex, hrc, hl]⟩
    · exact ⟨rc, w1, by simp [scsi_lookup, hex, hrc]⟩

theorem scsi_move_some {W : Type} (io : ioctl_hook W) (fd : Int)
    (h : never_aborts io fd) (w : W) :
    ∃ rc w1, scsi_move io fd w = some (rc, w1) := by
  obtain ⟨rc, w1, hex⟩ := scsi_execute_some io fd h LOAD_MEDIUM w
  by_cases hrc : rc = -EINVAL
  · obtain ⟨rc2, w2, hex2⟩ := scsi_execute_some io fd h LOAD_MEDIUM w1
    exact ⟨rc2, w2, by simp [scsi_move, hex, hrc, hex2]⟩
  · exact ⟨rc, w1, by simp [scsi_move, hex, hrc]⟩

theorem dev_load_appends {W : Type} (io : ioctl_hook W) (fd : Int)
    (h : never_aborts io fd) (dev : lrs_dev) (medium : media_info)
    (logs : List pho_log) (w : W) :
    ∃ rc w1, dev_load io fd dev medium logs w =
      some (rc, logs ++ [load_entry dev medium rc], w1) := by
  obtain ⟨rc, w1, hl⟩ := scsi_lookup_some io fd h lookup_operations w
  by_cases hrc : rc = 0
  · obtain ⟨rc2, w2, hm⟩ := scsi_move_some io fd h w1
    exact ⟨rc2, w2, by simp [dev_load, hl, hrc, hm, load_entry]⟩
  · exact ⟨rc, w1, by simp [dev_load, hl, hrc, load_entry]⟩

/-- C3: after a single `dev_load` on an empty log table the table holds exactly
one entry, whichever kind of operation is mocked and whether a failure is
injected or not (the six failures and the successful load of the test among
them), and whatever the real `ioctl` answers. -/
theorem dev_load_logs_one_entry {W : Type} (ioctl : ioctl_fn W) (op : scsi_operation_type)
    (should_fail : Bool) (fd : Int) (dev : lrs_dev) (medium : media_info) (w : W) :
    ∃ rc logs w1,
      dev_load (scsi_logs_hook ioctl op should_fail) fd dev medium [] w =
        some (rc, logs, w1) ∧
      logs.length = 1 := by
  obtain ⟨rc, w1, h⟩ := dev_load_appends (scsi_logs_hook ioctl op should_fail) fd
    (scsi_logs_hook_never_aborts ioctl op should_fail fd) dev medium [] w
  exact ⟨rc, _, w1, h, by simp⟩

/-- C5: the entry `dev_load` records for a device made by `create_device` and a
medium made by `create_medium` carries family tape and the name of the device,
family tape and the name of the medium, the cause `PHO_DEVICE_LOAD`, and as
error number the code `dev_load` returns: `EINVAL` (negated) when the load
failed with `EINVAL`, `0` when it succeeded; in both cases the entry passes
the assertions of `scsi_logs_check` on its fields. -/
theorem dev_load_log_entry {W : Type} (ioctl : ioctl_fn W) (op : scsi_operation_type)
    (should_fail : Bool) (fd : Int) (device_name model medium_name : String) (w : W) :
    ∃ rc log w1,
      dev_load (scsi_logs_hook ioctl op should_fail) fd (create_device device_name model)
        (create_medium medium_name) [] w = some (rc, [log], w1) ∧
      log.device = { family := PHO_RSC_TAPE, name := device_name } ∧
      log.medium = { family := PHO_RSC_TAPE, name := medium_name } ∧
      log.cause = PHO_DEVICE_LOAD ∧
      log.error_number = rc ∧
      (rc = -EINVAL → -log.error_number = EINVAL ∧
        scsi_logs_check_entry true device_name medium_name log = true) ∧
      (rc = 0 → log.error_number = 0 ∧
        scsi_logs_check_entry false device_name medium_name log = true) := by
  obtain ⟨rc, w1, h⟩ := dev_load_appends (scsi_logs_hook ioctl op should_fail) fd
    (scsi_logs_hook_never_aborts ioctl op should_fail fd) (create_device device_name model)
    (create_medium medium_name) [] w
  refine ⟨rc, load_entry (create_device device_name model) (create_medium medium_name) rc,
    w1, by simpa using h, rfl, rfl, rfl, rfl, ?_, ?_⟩
  · intro hrc
    subst hrc
    simp [load_entry, create_device, create_medium, scsi_logs_check_entry]
    decide
  · intro hrc
    subst hrc
    simp [load_entry, create_device, create_medium, scsi_logs_check_entry,
      assert_return_code]
    decide

/-! ## Theorems: batch operations of the store -/

theorem first_error_cons (rc : Int) (rcs : List Int) :
    first_error (rc :: rcs) = if rc = 0 then first_error rcs else rc := by
  by_cases h : rc = 0
  · subst h
    simp [first_error, List.find?]
  · have hb : (rc != 0) = true := by simpa using h
    simp [first_error, List.find?, hb, h]

theorem phobos_xfer_eq {U : Type} (sub_op : pho_xfer_desc → Int) (cb : pho_completion_cb_t U)
    (xfers : List pho_xfer_desc) (rc : Int) (udata : U) :
    phobos_xfer sub_op cb xfers rc udata =
      (if rc = 0 then first_error (xfers.map sub_op) else rc,
       xfers.foldl (fun u x => cb u x (sub_op x)) udata) := by
  induction xfers generalizing rc udata with
  | nil =>
    by_cases h : rc = 0 <;> simp [phobos_xfer, first_error, h]
  | cons x xs ih =>
    simp only [phobos_xfer, ih, List.map_cons, List.foldl_cons, first_error_cons]
    by_cases h : rc = 0 <;> by_cases hx : sub_op x = 0 <;> simp [h, hx]

theorem first_error_all_zero (rcs : List Int) (h : ∀ rc ∈ rcs, rc = 0) :
    first_error rcs = 0 := by
  induction rcs with
  | nil => rfl
  | cons rc rcs ih =>
    rw [first_error_cons, if_pos (h rc (List.mem_cons_self _ _))]
    exact ih (fun r hr => h r (List.mem_cons_of_mem _ hr))

theorem first_error_append (pre : List Int) (rc : Int) (post : List Int)
    (hpre : ∀ r ∈ pre, r = 0) (hrc : rc ≠ 0) :
    first_error (pre ++ rc :: post) = rc := by
  induction pre with
  | nil => simp [first_error_cons, hrc]
  | cons r pre ih =>
    rw [List.cons_append, first_error_cons, if_pos (hpre r (List.mem_cons_self _ _))]
    exact ih (fun r1 hr => hpre r1 (List.mem_cons_of_mem _ hr))

theorem foldl_record_cb (f : pho_xfer_desc → Int) (xfers : List pho_xfer_desc)
    (acc : List (pho_xfer_desc × Int)) :
    xfers.foldl (fun u x => record_cb u x (f x)) acc = acc ++ xfers.map (fun x => (x, f x)) := by
  induction xfers generalizing acc with
  | nil => simp
  | cons x xs ih =>
    rw [List.foldl_cons, ih]
    simp [record_cb]

theorem phobos_batch_eq {U : Type} (op : pho_xfer_op)
    (sub_op : pho_xfer_op → pho_xfer_desc → Int) (xfers : List pho_xfer_desc)
    (cb : pho_completion_cb_t U) (udata : U) :
    phobos_batch op sub_op xfers cb udata =
      (first_error (xfers.map (sub_op op)),
       xfers.foldl (fun u x => cb u x (sub_op op x)) udata) := by
  cases op <;> simp [phobos_batch, phobos_put, phobos_get, phobos_getmd, phobos_xfer_eq]

/-- C10: `phobos_put`, `phobos_get` and `phobos_getmd` over a batch of transfers
each return `0` if every sub-operation succeeded, and otherwise the code of the
first transfer, in the order of the batch, whose sub-operation failed; the
completion callback is called once for every transfer, in that order, with
the return code of that transfer, whether or not an earlier one failed. -/
theorem phobos_batch_first_error {U : Type} (op : pho_xfer_op)
    (sub_op : pho_xfer_op → pho_xfer_desc → Int) (xfers : List pho_xfer_desc)
    (cb : pho_completion_cb_t U) (udata : U) :
    ((∀ x ∈ xfers, sub_op op x = 0) → (phobos_batch op sub_op xfers cb udata).1 = 0) ∧
    (∀ pre x post, xfers = pre ++ x :: post → (∀ y ∈ pre, sub_op op y = 0) →
      sub_op op x ≠ 0 → (phobos_batch op sub_op xfers cb udata).1 = sub_op op x) ∧
    (phobos_batch op sub_op xfers cb udata).2 =
      xfers.foldl (fun u x => cb u x (sub_op op x)) udata ∧
    (phobos_batch op sub_op xfers record_cb []).2 =
      xfers.map (fun x => (x, sub_op op x)) := by
  refine ⟨?_, ?_, ?_, ?_⟩
  · intro h
    rw [phobos_batch_eq]
    apply first_error_all_zero
    intro rc hrc
    obtain ⟨x, hx, rfl⟩ := List.mem_map.mp hrc
    exact h x hx
  · intro pre x post hsplit hpre hx
    rw [phobos_batch_eq, hsplit, List.map_append, List.map_cons]
    apply first_error_append _ _ _ _ hx
    intro rc hrc
    obtain ⟨y, hy, rfl⟩ := List.mem_map.mp hrc
    exact hpre y hy
  · rw [phobos_batch_eq]
  · rw [phobos_batch_eq]
    simp [foldl_record_cb]

/-! ## Theorems: layout_step on a done encoder, the assertions -/

/-- C15: when `layout_step` rejects a call because the encoder is done, the
memory after the call is the memory before it, so the encoder (with all its
fields) and the caller's `reqs` and `n_reqs` cells are the same; and no layout
operation is called: the outcome is the same whatever code the function
pointers resolve to. -/
theorem layout_step_done_frame (code : Code) (m : Memory) (enc resp reqs n_reqs : Ptr)
    (e : pho_encoder) (henc : m.enc_at enc = some e) (hdone : e.done = true) :
    ∃ m1, layout_step code m enc resp reqs n_reqs = .ok (-EINVAL, m1) ∧
      m1.enc_at enc = some e ∧
      m1.req_cells reqs = m.req_cells reqs ∧
      m1.size_cells n_reqs = m.size_cells n_reqs ∧
      m1.encoders = m.encoders ∧ m1.ops_vectors = m.ops_vectors ∧
      m1.req_cells = m.req_cells ∧ m1.size_cells = m.size_cells ∧
      ∀ code1 : Code,
        layout_step code1 m enc resp reqs n_reqs = layout_step code m enc resp reqs n_reqs := by
  refine ⟨m, ?_, henc, rfl, rfl, rfl, rfl, rfl, rfl, ?_⟩
  · simp [layout_step, henc, hdone]
  · intro code1
    simp [layout_step, henc, hdone]

/-- Witness of C15: the done encoder of `sample_memory true`, whose step
operation would write to both output cells. -/
theorem layout_step_done_frame_witness :
    (sample_memory true).enc_at 1 = some (sample_encoder true) ∧
    (sample_encoder true).done = true ∧
    ∃ m1, layout_step sample_code (sample_memory true) 1 4 2 3 = .ok (-EINVAL, m1) ∧
      m1.enc_at 1 = some (sample_encoder true) ∧
      m1.req_cells 2 = (sample_memory true).req_cells 2 ∧
      m1.size_cells 3 = (sample_memory true).size_cells 3 ∧
      m1.encoders = (sample_memory true).encoders ∧
      m1.ops_vectors = (sample_memory true).ops_vectors ∧
      m1.req_cells = (sample_memory true).req_cells ∧
      m1.size_cells = (sample_memory true).size_cells ∧
      ∀ code1 : Code,
        layout_step code1 (sample_memory true) 1 4 2 3 =
          layout_step sample_code (sample_memory true) 1 4 2 3 :=
  ⟨rfl, rfl, layout_step_done_frame sample_code (sample_memory true) 1 4 2 3
    (sample_encoder true) rfl rfl⟩

/-- C16: in `layout_step` the done flag is tested before the assertions of
`CHECK_ENC_OP`: a done encoder gets `-EINVAL` even when its operation vector
is `NULL` or its step operation is `NULL`; for an encoder that is not done, an
assertion fails when the operation vector is `NULL`, and, the operation vector
being `o`, no assertion fails exactly when the encoder, the operation vector
and the step operation are all three not `NULL`. -/
theorem layout_step_check_order (code : Code) (m : Memory) (enc resp reqs n_reqs : Ptr)
    (e : pho_encoder) (henc : m.enc_at enc = some e) :
    (e.done = true → layout_step code m enc resp reqs n_reqs = .ok (-EINVAL, m)) ∧
    (e.done = true → e.ops = NULL →
      layout_step code m enc resp reqs n_reqs = .ok (-EINVAL, m)) ∧
    (e.done = true → ∀ o, m.ops_at e.ops = some o → o.step = NULL →
      layout_step code m enc resp reqs n_reqs = .ok (-EINVAL, m)) ∧
    (e.done = false → e.ops = NULL →
      layout_step code m enc resp reqs n_reqs = .error .assertion) ∧
    (e.done = false → ∀ o, m.ops_at e.ops = some o →
      (layout_step code m enc resp reqs n_reqs ≠ .error .assertion ↔
        enc ≠ NULL ∧ e.ops ≠ NULL ∧ o.step ≠ NULL)) := by
  have h1 : enc ≠ NULL := by
    intro h
    simp [Memory.enc_at, h] at henc
  refine ⟨?_, ?_, ?_, ?_, ?_⟩
  · intro hdone
    simp [layout_step, henc, hdone]
  · intro hdone _
    simp [layout_step, henc, hdone]
  · intro hdone o _ _
    simp [layout_step, henc, hdone]
  · intro hdone hops
    simp [layout_step, henc, hdone, hops, h1]
  · intro hdone o hops
    have h2 : e.ops ≠ NULL := by
      intro h
      simp [Memory.ops_at, h] at hops
    by_cases h3 : o.step = NULL
    · simp [layout_step, henc, hdone, hops, h1, h2, h3]
    · cases hf : fn_at code o.step with
      | none => simp [layout_step, henc, hdone, hops, h1, h2, h3, hf]
      | some f => simp [layout_step, henc, hdone, hops, h1, h2, h3, hf]

/-- Witness of C16: the encoder of `bare_memory`, done and without operation
vector. -/
theorem layout_step_check_order_witness :
    bare_memory.enc_at 1 = some bare_encoder ∧ bare_encoder.done = true ∧
    bare_encoder.ops = NULL ∧
    layout_step sample_code bare_memory 1 4 2 3 = .ok (-EINVAL, bare_memory) :=
  ⟨rfl, rfl, rfl,
    (layout_step_check_order sample_code bare_memory 1 4 2 3 bare_encoder rfl).2.1 rfl rfl⟩

/-! ## Theorems: the default name of a copy, on failure -/

/-- C17: when `get_cfg_default_copy_name` returns `-EINVAL` the caller's
`*copy_name` holds after the call what it held before; it is written only on
the path that returns `0`: if it holds another value after the call, the
function returned `0` and the value is the string the lookup gave. -/
theorem get_cfg_default_copy_name_unchanged (cfg_get : cfg_get_fn)
    (copy_name : Option String) :
    ((get_cfg_default_copy_name cfg_get copy_name).1 = -EINVAL →
      (get_cfg_default_copy_name cfg_get copy_name).2 = copy_name) ∧
    ((get_cfg_default_copy_name cfg_get copy_name).2 ≠ copy_name →
      (get_cfg_default_copy_name cfg_get copy_name).1 = 0 ∧
      (get_cfg_default_copy_name cfg_get copy_name).2 =
        cfg_get PHO_CFG_COPY_FIRST PHO_CFG_COPY_LAST PHO_CFG_COPY_default_copy_name
          cfg_copy) := by
  unfold get_cfg_default_copy_name
  cases h : cfg_get PHO_CFG_COPY_FIRST PHO_CFG_COPY_LAST PHO_CFG_COPY_default_copy_name
      cfg_copy with
  | none => simp
  | some s => simp [EINVAL]

/-- Witness of C17: a lookup that fails, the caller's variable holding a
string before the call. -/
theorem get_cfg_default_copy_name_unchanged_witness :
    (get_cfg_default_copy_name cfg_get_null (some "kept")).1 = -EINVAL ∧
    (get_cfg_default_copy_name cfg_get_null (some "kept")).2 = some "kept" :=
  ⟨rfl, (get_cfg_default_copy_name_unchanged cfg_get_null (some "kept")).1 rfl⟩

/-! ## Theorems: the name of a kind of encoder -/

/-- C18: `encoder_type2str` gives `encoder`, `decoder` and `eraser encoder` for
the three kinds, three names that differ from each other, and `unknow` for
every other value of the type; so for every encoder the name is `encoder`
exactly when `is_encoder` holds, `decoder` exactly when `is_decoder` holds, and
`eraser encoder` exactly when `is_delete` holds. -/
theorem encoder_type2str_names (enc : pho_encoder) :
    (enc.type = PHO_ENC_ENCODER → encoder_type2str enc = "encoder") ∧
    (enc.type = PHO_ENC_DECODER → encoder_type2str enc = "decoder") ∧
    (enc.type = PHO_ENC_ERASER → encoder_type2str enc = "eraser encoder") ∧
    ("encoder" ≠ "decoder" ∧ "encoder" ≠ "eraser encoder" ∧
      "decoder" ≠ "eraser encoder") ∧
    (enc.type ≠ PHO_ENC_ENCODER → enc.type ≠ PHO_ENC_DECODER →
      enc.type ≠ PHO_ENC_ERASER → encoder_type2str enc = "unknow") ∧
    (encoder_type2str enc = "encoder" ↔ is_encoder enc = true) ∧
    (encoder_type2str enc = "decoder" ↔ is_decoder enc = true) ∧
    (encoder_type2str enc = "eraser encoder" ↔ is_delete enc = true) := by
  unfold encoder_type2str is_encoder is_decoder is_delete
  by_cases h0 : enc.type = PHO_ENC_ENCODER
  · simp [h0, PHO_ENC_ENCODER, PHO_ENC_DECODER, PHO_ENC_ERASER]
  · by_cases h1 : enc.type = PHO_ENC_DECODER
    · simp [h1, PHO_ENC_ENCODER, PHO_ENC_DECODER, PHO_ENC_ERASER]
    · by_cases h2 : enc.type = PHO_ENC_ERASER
      · simp [h2, PHO_ENC_ENCODER, PHO_ENC_DECODER, PHO_ENC_ERASER]
      · simp [h0, h1, h2]

/-! ## Theorems: the mocked ioctl -/

/-- C19: for a header that `get_op_params` accepts, giving the opcode `code` and
the element type `type`: when `op_to_mock` selects the command for the kind
being mocked, `mock_ioctl` returns `0` with the masked status set to
`CHECK_CONDITION` and the sense key to `ILLEGAL_REQUEST`, the rest of the header
and the world being left as they are, whatever the real `ioctl` is (it is not
called); when the command is not selected, `mock_ioctl` returns what the real
`ioctl` returns on the same descriptor, request and header, header included.
The headers accepted are those whose opcode is `READ_ELEMENT_STATUS`,
`MODE_SENSE` or `MOVE_MEDIUM`. -/
theorem mock_ioctl_selected {W : Type} (ioctl : ioctl_fn W) (op : scsi_operation_type)
    (w : W) (fd : Int) (request : Nat) (hdr : sg_io_hdr) (code type : Nat)
    (hpar : get_op_params hdr 0 = some (code, type)) :
    code = hdr.cmd_code ∧ accepted_opcode hdr ∧
    (op_to_mock op type code = true →
      mock_ioctl ioctl op w fd request hdr =
        some (0, { hdr with masked_status := CHECK_CONDITION,
                            sense_key := SPC_SK_ILLEGAL_REQUEST }, w) ∧
      ∀ ioctl1 : ioctl_fn W,
        mock_ioctl ioctl1 op w fd request hdr = mock_ioctl ioctl op w fd request hdr) ∧
    (op_to_mock op type code = false →
      mock_ioctl ioctl op w fd request hdr = some (ioctl w fd request hdr)) := by
  refine ⟨?_, ?_, ?_, ?_⟩
  · simp only [get_op_params] at hpar
    split at hpar
    · simp at hpar
      exact hpar.1.symm
    · split at hpar
      · simp at hpar
      · simp at hpar
        exact hpar.1.symm
  · simp only [get_op_params] at hpar
    unfold accepted_opcode
    by_cases h1 : hdr.cmd_code = READ_ELEMENT_STATUS
    · exact Or.inl h1
    · by_cases h2 : hdr.cmd_code = MODE_SENSE
      · exact Or.inr (Or.inl h2)
      · by_cases h3 : hdr.cmd_code = MOVE_MEDIUM
        · exact Or.inr (Or.inr h3)
        · simp [h1, h2, h3] at hpar
  · intro hsel
    simp [mock_ioctl, hpar, hsel]
  · intro hsel
    simp [mock_ioctl, hpar, hsel]

/-- Witness of C19: a `MOVE_MEDIUM` command while `LOAD_MEDIUM` is mocked, over
a real `ioctl` that would fail. -/
theorem mock_ioctl_selected_witness :
    get_op_params (scsi_command LOAD_MEDIUM) 0 = some (MOVE_MEDIUM, 0) ∧
    op_to_mock LOAD_MEDIUM 0 MOVE_MEDIUM = true ∧
    mock_ioctl failing_ioctl LOAD_MEDIUM 0 3 sg_io_request (scsi_command LOAD_MEDIUM) =
      some (0, { scsi_command LOAD_MEDIUM with masked_status := CHECK_CONDITION,
                                               sense_key := SPC_SK_ILLEGAL_REQUEST }, 0) :=
  ⟨rfl, rfl,
    ((mock_ioctl_selected failing_ioctl LOAD_MEDIUM 0 3 sg_io_request
      (scsi_command LOAD_MEDIUM) MOVE_MEDIUM 0 rfl).2.2.1 rfl).1⟩

/-- C20: for every SCSI command, given by its opcode and its element type, at
most one of the six kinds of operation is selected by `op_to_mock`; and each
kind is selected by a command: `MODE_SENSE` for `LIBRARY_LOAD`,
`READ_ELEMENT_STATUS` with element type 1, 2, 3, 4 for `ARMS_STATUS`,
`SLOTS_STATUS`, `IMPEXP_STATUS`, `DRIVES_STATUS`, and `MOVE_MEDIUM` for
`LOAD_MEDIUM`. -/
theorem op_to_mock_exclusive (current_element_type current_op : Nat) :
    (∀ op1 op2 : scsi_operation_type,
      op_to_mock op1 current_element_type current_op = true →
      op_to_mock op2 current_element_type current_op = true → op1 = op2) ∧
    op_to_mock LIBRARY_LOAD current_element_type MODE_SENSE = true ∧
    op_to_mock ARMS_STATUS 1 READ_ELEMENT_STATUS = true ∧
    op_to_mock SLOTS_STATUS 2 READ_ELEMENT_STATUS = true ∧
    op_to_mock IMPEXP_STATUS 3 READ_ELEMENT_STATUS = true ∧
    op_to_mock DRIVES_STATUS 4 READ_ELEMENT_STATUS = true ∧
    op_to_mock LOAD_MEDIUM current_element_type MOVE_MEDIUM = true := by
  refine ⟨?_, ?_, rfl, rfl, rfl, rfl, ?_⟩
  · intro op1 op2 h1 h2
    cases op1 <;> cases op2 <;>
      simp [op_to_mock, MODE_SENSE, READ_ELEMENT_STATUS, MOVE_MEDIUM] at h1 h2 ⊢ <;>
      omega
  · simp [op_to_mock]
  · simp [op_to_mock]

/-! ## Theorems: the kinds of operation of a transfer -/

/-- Counterexample to C14: the four kinds Put, Get, GetMetadata and Delete
cannot each be a value of `enum pho_xfer_op`, which has three values: no
assignment of a value to each kind keeps the four apart. -/
theorem xfer_op_four_kinds_false :
    ¬ ∃ f : spec_xfer_kind → pho_xfer_op, Function.Injective f := by
  rintro ⟨f, hf⟩
  have h := Fintype.card_le_of_injective f hf
  have h4 : Fintype.card spec_xfer_kind = 4 := rfl
  have h3 : Fintype.card pho_xfer_op = 3 := rfl
  omega

/-- C14, amended: the operation kind of a transfer descriptor ranges over Put,
Get and GetMetadata: each of the three is a value of `enum pho_xfer_op`, the
three values differ, the enumeration has no other value, and Delete has
none. -/
theorem xfer_op_three_kinds :
    xfer_op_of_kind .Put = some PHO_XFER_OP_PUT ∧
    xfer_op_of_kind .Get = some PHO_XFER_OP_GET ∧
    xfer_op_of_kind .GetMetadata = some PHO_XFER_OP_GETMD ∧
    xfer_op_of_kind .Delete = none ∧
    PHO_XFER_OP_PUT ≠ PHO_XFER_OP_GET ∧ PHO_XFER_OP_PUT ≠ PHO_XFER_OP_GETMD ∧
    PHO_XFER_OP_GET ≠ PHO_XFER_OP_GETMD ∧
    (∀ op : pho_xfer_op,
      op = PHO_XFER_OP_PUT ∨ op = PHO_XFER_OP_GET ∨ op = PHO_XFER_OP_GETMD) ∧
    (∀ x : pho_xfer_desc, ∃ k : spec_xfer_kind,
      k ≠ .Delete ∧ xfer_op_of_kind k = some x.xd_op) ∧
    Fintype.card pho_xfer_op = 3 := by
  refine ⟨rfl, rfl, rfl, rfl, by decide, by decide, by decide, ?_, ?_, rfl⟩
  · intro op
    cases op <;> simp
  · intro x
    cases h : x.xd_op
    · exact ⟨.Put, by decide, rfl⟩
    · exact ⟨.Get, by decide, rfl⟩
    · exact ⟨.GetMetadata, by decide, rfl⟩

/-! ## Theorems: the location of an object -/

theorem candidate_media_isEmpty (dss : dss_handle) (layout : layout_info) :
    (candidate_media dss layout).isEmpty = true ↔
      ∀ e ∈ layout.extents, dss.media_lock e.media = none := by
  simp [candidate_media, List.isEmpty_iff]

theorem candidate_media_all_elsewhere (dss : dss_handle) (layout : layout_info) (h : String) :
    (candidate_media dss layout).all (locked_elsewhere h) = true ↔
      ∀ e ∈ layout.extents, ∀ lock, dss.media_lock e.media = some lock →
        ∃ h1, lock = some h1 ∧ h1 ≠ h := by
  simp only [candidate_media, List.all_eq_true, List.mem_filterMap]
  constructor
  · intro hall e he lock hlock
    have hl := hall lock ⟨e, he, hlock⟩
    cases lock with
    | none => simp [locked_elsewhere] at hl
    | some h1 => exact ⟨h1, rfl, by simpa [locked_elsewhere] using hl⟩
  · rintro hall lock ⟨e, he, hlock⟩
    obtain ⟨h1, rfl, hne⟩ := hall e he lock hlock
    simpa [locked_elsewhere] using hne

/-- C11: `layout_locate` returns `-ENODEV` when no medium backing the layout
exists in the catalog, and only then; for a valid layout with a medium in the
catalog and a focus host `h` (given, or the local hostname), it returns
`-EAGAIN` when every candidate medium is locked by a host other than `h`, and
`-EAGAIN` is returned only then; and whenever the code returned is an error
the hostname returned is `NULL`. -/
theorem layout_locate_errors (layout_valid : layout_info → Bool)
    (self_hostname : Option String) (dss : dss_handle) (layout : layout_info)
    (focus_host : Option String) :
    ((∀ e ∈ layout.extents, dss.media_lock e.media = none) →
      layout_locate layout_valid self_hostname dss layout focus_host = (-ENODEV, none)) ∧
    ((layout_locate layout_valid self_hostname dss layout focus_host).1 = -ENODEV →
      ∀ e ∈ layout.extents, dss.media_lock e.media = none) ∧
    (∀ h, layout_valid layout = true →
      focus_host.orElse (fun _ => self_hostname) = some h →
      (∃ e ∈ layout.extents, dss.media_lock e.media ≠ none) →
      (∀ e ∈ layout.extents, ∀ lock, dss.media_lock e.media = some lock →
        ∃ h1, lock = some h1 ∧ h1 ≠ h) →
      layout_locate layout_valid self_hostname dss layout focus_host = (-EAGAIN, none)) ∧
    ((layout_locate layout_valid self_hostname dss layout focus_host).1 = -EAGAIN →
      ∃ h, focus_host.orElse (fun _ => self_hostname) = some h ∧
        ∀ e ∈ layout.extents, ∀ lock, dss.media_lock e.media = some lock →
          ∃ h1, lock = some h1 ∧ h1 ≠ h) ∧
    ((layout_locate layout_valid self_hostname dss layout focus_host).1 ≠ 0 →
      (layout_locate layout_valid self_hostname dss layout focus_host).2 = none) := by
  refine ⟨?_, ?_, ?_, ?_, ?_⟩
  · intro hnone
    simp [layout_locate, (candidate_media_isEmpty dss layout).2 hnone]
  · intro hrc
    by_cases hc : (candidate_media dss layout).isEmpty = true
    · exact (candidate_media_isEmpty dss layout).1 hc
    · exfalso
      unfold layout_locate at hrc
      rw [if_neg hc] at hrc
      split at hrc
      · simp [EINVAL, ENODEV] at hrc
      · split at hrc
        · simp [EADDRNOTAVAIL, ENODEV] at hrc
        · split at hrc
          · simp [EAGAIN, ENODEV] at hrc
          · simp [ENODEV] at hrc
  · intro h hvalid hfocus hsome hall
    have hc : ¬ (candidate_media dss layout).isEmpty = true := by
      intro hc
      obtain ⟨e, he, hne⟩ := hsome
      exact hne ((candidate_media_isEmpty dss layout).1 hc e he)
    have ha := (candidate_media_all_elsewhere dss layout h).2 hall
    unfold layout_locate
    rw [if_neg hc]
    simp [hvalid, hfocus, ha]
  · intro hrc
    unfold layout_locate at hrc
    split at hrc
    · simp [EAGAIN, ENODEV] at hrc
    · split at hrc
      · simp [EINVAL, EAGAIN] at hrc
      · split at hrc
        · simp [EADDRNOTAVAIL, EAGAIN] at hrc
        · next h hf =>
          split at hrc
          · next ha =>
            exact ⟨h, hf, (candidate_media_all_elsewhere dss layout h).1 ha⟩
          · simp [EAGAIN] at hrc
  · intro hrc
    by_cases hc : (candidate_media dss layout).isEmpty = true
    · simp [layout_locate, hc]
    · by_cases hv : layout_valid layout = true
      · cases hf : focus_host.orElse (fun _ => self_hostname) with
        | none =>
          unfold layout_locate
          rw [if_neg hc]
          simp [hv, hf]
        | some h =>
          by_cases ha : (candidate_media dss layout).all (locked_elsewhere h) = true
          · unfold layout_locate
            rw [if_neg hc]
            simp only [hv, hf, ha]
            simp
          · exfalso
            apply hrc
            unfold layout_locate
            rw [if_neg hc]
            simp only [hv, hf, ha]
            simp
      · unfold layout_locate
        rw [if_neg hc]
        simp [hv]

/-- Witness of C11: two tapes locked by two other hosts give `-EAGAIN` to the
focus host `host_c`, a catalog without media gives `-ENODEV`, and the hostname
is `NULL` both times. -/
theorem layout_locate_errors_witness :
    layout_locate (fun _ => true) none split_locks two_tape_layout (some "host_c") =
      (-EAGAIN, none) ∧
    layout_locate (fun _ => true) none empty_catalog two_tape_layout (some "host_c") =
      (-ENODEV, none) :=
  ⟨(layout_locate_errors (fun _ => true) none split_locks two_tape_layout
      (some "host_c")).2.2.1 "host_c" rfl rfl
      ⟨_, List.mem_cons_self _ _, by decide⟩
      (fun e he lock hlock => by
        simp only [two_tape_layout, List.mem_cons, List.mem_singleton, List.not_mem_nil,
          or_false] at he
        rcases he with rfl | rfl
        · exact ⟨"host_a", by simpa [split_locks] using hlock.symm, by decide⟩
        · exact ⟨"host_b", by simpa [split_locks] using hlock.symm, by decide⟩),
   (layout_locate_errors (fun _ => true) none empty_catalog two_tape_layout
      (some "host_c")).1 (fun _ _ => rfl)⟩

/-! ## Theorems: constructors and destruction of encoders -/

theorem enc_at_set_encoder (m : Memory) (p : Ptr) (e : pho_encoder) (hp : p ≠ NULL) :
    (m.set_encoder p e).enc_at p = some e := by
  simp [Memory.enc_at, Memory.set_encoder, hp]

theorem enc_at_set_encoder_ne (m : Memory) (p q : Ptr) (e : pho_encoder) (hq : q ≠ p) :
    (m.set_encoder p e).enc_at q = m.enc_at q := by
  simp [Memory.enc_at, Memory.set_encoder, hq]

theorem xfer_bound_elsewhere_iff (w : layout_world) (enc xfer : Ptr) :
    xfer_bound_elsewhere w enc xfer = true ↔
      ∃ p ∈ w.live, p ≠ enc ∧ handles w p xfer = true := by
  simp [xfer_bound_elsewhere, List.any_eq_true]

theorem handles_layout_init_ne (w : layout_world) (enc xfer layout ops : Ptr) (type : Int)
    (q x : Ptr) (hq : q ≠ enc) :
    handles (layout_init w enc xfer layout ops type) q x = handles w q x := by
  simp [handles, layout_init, enc_at_set_encoder_ne _ _ _ _ hq]

theorem handles_layout_init_self (w : layout_world) (enc xfer layout ops : Ptr) (type : Int)
    (x : Ptr) (h : handles (layout_init w enc xfer layout ops type) enc x = true) :
    x = xfer := by
  by_cases hn : enc = NULL
  · simp [handles, layout_init, Memory.enc_at, hn] at h
  · simp [handles, layout_init, enc_at_set_encoder _ _ _ hn] at h
    exact h.symm

theorem single_handler_layout_init (w : layout_world) (enc xfer layout ops : Ptr) (type : Int)
    (hfree : xfer_bound_elsewhere w enc xfer = false) (hw : single_handler w) :
    single_handler (layout_init w enc xfer layout ops type) := by
  have hno : ∀ q ∈ w.live, q ≠ enc → handles w q xfer = true → False := by
    intro q hq hne hh
    have : xfer_bound_elsewhere w enc xfer = true :=
      (xfer_bound_elsewhere_iff w enc xfer).2 ⟨q, hq, hne, hh⟩
    rw [hfree] at this
    exact Bool.false_ne_true this
  have hlive : ∀ p, p ∈ (layout_init w enc xfer layout ops type).live →
      p = enc ∨ (p ∈ w.live ∧ p ≠ enc) := by
    intro p hp
    simp only [layout_init, List.mem_cons, List.mem_filter, bne_iff_ne] at hp
    exact hp
  intro p hp q hq x hpx hqx
  rcases hlive p hp with rfl | ⟨hpl, hpn⟩ <;> rcases hlive q hq with rfl | ⟨hql, hqn⟩
  · rfl
  · exfalso
    have hx := handles_layout_init_self w _ xfer layout ops type x hpx
    rw [handles_layout_init_ne w _ xfer layout ops type q x hqn, hx] at hqx
    exact hno q hql hqn hqx
  · exfalso
    have hx := handles_layout_init_self w _ xfer layout ops type x hqx
    rw [handles_layout_init_ne w _ xfer layout ops type p x hpn, hx] at hpx
    exact hno p hpl hpn hpx
  · rw [handles_layout_init_ne w enc xfer layout ops type p x hpn] at hpx
    rw [handles_layout_init_ne w enc xfer layout ops type q x hqn] at hqx
    exact hw p hpl q hql x hpx hqx

theorem layout_usable_false (layout_valid : layout_info → Bool) (w : layout_world)
    (layout : Ptr)
    (h : layout = NULL ∨ w.layouts layout = none ∨
      ∃ l, w.layouts layout = some l ∧ layout_valid l = false) :
    layout_usable layout_valid w layout = false := by
  unfold layout_usable
  by_cases h0 : layout = NULL
  · simp [h0]
  · rcases h with h | h | ⟨l, hl, hv⟩
    · exact absurd h h0
    · simp [h0, h]
    · simp [h0, hl, hv]

/-- C13: a transfer is handled by one encoder only.  `layout_encode`,
`layout_decode` and `layout_delete` return `-EINVAL`, and change nothing, when
the transfer is already bound to another encoder in use; `layout_decode` and
`layout_delete` also do when the layout is `NULL`, is not in memory, or is
malformed; otherwise they return `0`; and if every transfer has at most one
encoder in use before a call, so it has after it. -/
theorem layout_constructors_einval (layout_valid : layout_info → Bool) (ops : Ptr)
    (w : layout_world) (enc xfer layout : Ptr) :
    ((∃ p ∈ w.live, p ≠ enc ∧ handles w p xfer = true) →
      layout_encode ops w enc xfer = (-EINVAL, w) ∧
      layout_decode layout_valid ops w enc xfer layout = (-EINVAL, w) ∧
      layout_delete layout_valid ops w enc xfer layout = (-EINVAL, w)) ∧
    ((layout = NULL ∨ w.layouts layout = none ∨
        ∃ l, w.layouts layout = some l ∧ layout_valid l = false) →
      layout_decode layout_valid ops w enc xfer layout = (-EINVAL, w) ∧
      layout_delete layout_valid ops w enc xfer layout = (-EINVAL, w)) ∧
    ((¬ ∃ p ∈ w.live, p ≠ enc ∧ handles w p xfer = true) →
      (layout_encode ops w enc xfer).1 = 0 ∧
      (layout_usable layout_valid w layout = true →
        (layout_decode layout_valid ops w enc xfer layout).1 = 0 ∧
        (layout_delete layout_valid ops w enc xfer layout).1 = 0)) ∧
    (single_handler w →
      single_handler (layout_encode ops w enc xfer).2 ∧
      single_handler (layout_decode layout_valid ops w enc xfer layout).2 ∧
      single_handler (layout_delete layout_valid ops w enc xfer layout).2) := by
  refine ⟨?_, ?_, ?_, ?_⟩
  · intro hb
    have hb1 := (xfer_bound_elsewhere_iff w enc xfer).2 hb
    simp [layout_encode, layout_decode, layout_delete, hb1]
  · intro hl
    have hu := layout_usable_false layout_valid w layout hl
    constructor
    · unfold layout_decode
      split
      · rfl
      · simp [hu]
    · unfold layout_delete
      split
      · rfl
      · simp [hu]
  · intro hb
    have hb1 : xfer_bound_elsewhere w enc xfer = false := by
      cases hx : xfer_bound_elsewhere w enc xfer with
      | false => rfl
      | true => exact absurd ((xfer_bound_elsewhere_iff w enc xfer).1 hx) hb
    refine ⟨by simp [layout_encode, hb1], ?_⟩
    intro hu
    simp [layout_decode, layout_delete, hb1, hu]
  · intro hw
    cases hx : xfer_bound_elsewhere w enc xfer with
    | true => simp [layout_encode, layout_decode, layout_delete, hx, hw]
    | false =>
      refine ⟨?_, ?_, ?_⟩
      · simp only [layout_encode, hx, Bool.false_eq_true, if_false]
        exact single_handler_layout_init w enc xfer _ ops _ hx hw
      · unfold layout_decode
        rw [hx]
        simp only [Bool.false_eq_true, if_false]
        split
        · exact hw
        · exact single_handler_layout_init w enc xfer _ ops _ hx hw
      · unfold layout_delete
        rw [hx]
        simp only [Bool.false_eq_true, if_false]
        split
        · exact hw
        · exact single_handler_layout_init w enc xfer _ ops _ hx hw


/-- Witness of C13: the transfer at address 9 being bound to the encoder at
address 1, a second encoder, at address 2, is refused for it by the three
constructors. -/
theorem layout_constructors_einval_witness :
    (∃ p ∈ bound_world.live, p ≠ 2 ∧ handles bound_world p 9 = true) ∧
    layout_encode 5 bound_world 2 9 = (-EINVAL, bound_world) ∧
    layout_decode (fun _ => true) 5 bound_world 2 9 6 = (-EINVAL, bound_world) ∧
    layout_delete (fun _ => true) 5 bound_world 2 9 6 = (-EINVAL, bound_world) :=
  have hb : ∃ p ∈ bound_world.live, p ≠ 2 ∧ handles bound_world p 9 = true :=
    ⟨1, List.mem_cons_self _ _, by decide, rfl⟩
  ⟨hb, (layout_constructors_einval (fun _ => true) 5 bound_world 2 9 6).1 hb⟩

theorem enc_at_set_encoder_same (m : Memory) (p : Ptr) (e1 e2 : pho_encoder) :
    (m.set_encoder p e1).set_encoder p e2 = m.set_encoder p e2 := by
  unfold Memory.set_encoder
  congr 1
  funext q
  by_cases h : q = p <;> simp [h]

theorem layout_destroy_eq (w : layout_world) (enc : Ptr) (e : pho_encoder) (owned : Bool)
    (h : w.mem.enc_at enc = some e)
    (hown : (is_encoder e && decide (e.layout ≠ NULL) && !w.committed e.layout) = owned) :
    layout_destroy w enc =
      { mem := w.mem.set_encoder enc
          { e with last_resp := NULL, layout := if owned then NULL else e.layout },
        live := w.live.filter (fun p => p != enc),
        layouts := fun p => if owned && decide (p = e.layout) then none else w.layouts p,
        committed := w.committed,
        granted := w.granted,
        locks := w.locks.filter (fun id =>
          !(if e.last_resp = NULL then [] else w.granted e.last_resp).contains id),
        released := w.released ++ (if e.last_resp = NULL then [] else w.granted e.last_resp),
        freed := if owned then w.freed ++ [e.layout] else w.freed } := by
  subst hown
  simp [layout_destroy, h]

theorem layout_destroy_twice (w : layout_world) (enc : Ptr) :
    layout_destroy (layout_destroy w enc) enc = layout_destroy w enc := by
  cases h : w.mem.enc_at enc with
  | none => simp [layout_destroy, h]
  | some e =>
    have hne : enc ≠ NULL := by
      intro h0
      simp [Memory.enc_at, h0] at h
    cases hown : (is_encoder e && decide (e.layout ≠ NULL) && !w.committed e.layout) with
    | false =>
      rw [layout_destroy_eq w enc e false h hown]
      rw [layout_destroy_eq _ enc _ false (enc_at_set_encoder _ _ _ hne)
        (by simpa [is_encoder] using hown)]
      simp [enc_at_set_encoder_same, List.filter_filter]
    | true =>
      rw [layout_destroy_eq w enc e true h hown]
      rw [layout_destroy_eq _ enc _ false (enc_at_set_encoder _ _ _ hne)
        (by simp)]
      simp [enc_at_set_encoder_same, List.filter_filter]

/-- C12: destroying an encoder is idempotent: `layout_destroy` on an encoder
that was already destroyed leaves the world exactly as the first
`layout_destroy` left it; in particular the logs of the locks released and of
the layouts freed, and the locks held, are the same, so that no lock is
released twice and no layout freed twice. -/
theorem layout_destroy_idempotent (w : layout_world) (enc : Ptr) :
    layout_destroy (layout_destroy w enc) enc = layout_destroy w enc ∧
    (layout_destroy (layout_destroy w enc) enc).released = (layout_destroy w enc).released ∧
    (layout_destroy (layout_destroy w enc) enc).freed = (layout_destroy w enc).freed ∧
    (layout_destroy (layout_destroy w enc) enc).locks = (layout_destroy w enc).locks := by
  have h := layout_destroy_twice w enc
  exact ⟨h, by rw [h], by rw [h], by rw [h]⟩

/-- Witness of C12: the encoder of `writing_world` releases its lock and frees
its layout once, at the first `layout_destroy`. -/
theorem layout_destroy_idempotent_witness :
    (layout_destroy writing_world 1).released =
      [{ family := PHO_RSC_TAPE, name := "P00001L5" }] ∧
    (layout_destroy writing_world 1).freed = [6] ∧
    (layout_destroy (layout_destroy writing_world 1) 1).released =
      [{ family := PHO_RSC_TAPE, name := "P00001L5" }] ∧
    (layout_destroy (layout_destroy writing_world 1) 1).freed = [6] :=
  ⟨rfl, rfl,
    (layout_destroy_idempotent writing_world 1).2.1.trans rfl,
    (layout_destroy_idempotent writing_world 1).2.2.1.trans rfl⟩

/-! ## Theorems: JSON objects -/

theorem members_get_cons (k0 : String) (v0 : json_t) (ms : List (String × json_t))
    (k : String) :
    members_get ((k0, v0) :: ms) k = if k0 = k then some v0 else members_get ms k := by
  by_cases h : k0 = k
  · subst h
    simp [members_get, List.find?]
  · have hb : (k0 == k) = false := by simpa using h
    simp [members_get, List.find?, hb, h]

theorem members_get_append_ne (ms : List (String × json_t)) (k : String) (v : json_t)
    (k1 : String) (h : k1 ≠ k) :
    members_get (ms ++ [(k, v)]) k1 = members_get ms k1 := by
  induction ms with
  | nil =>
    rw [List.nil_append, members_get_cons, if_neg (Ne.symm h)]
  | cons m ms ih =>
    obtain ⟨k0, v0⟩ := m
    rw [List.cons_append, members_get_cons, members_get_cons, ih]

theorem members_get_append_eq (ms : List (String × json_t)) (k : String) (v : json_t)
    (h : ms.any (fun m => m.1 == k) = false) :
    members_get (ms ++ [(k, v)]) k = some v := by
  induction ms with
  | nil => rw [List.nil_append, members_get_cons, if_pos rfl]
  | cons m ms ih =>
    obtain ⟨k0, v0⟩ := m
    simp only [List.any_cons, Bool.or_eq_false_iff, beq_eq_false_iff_ne] at h
    rw [List.cons_append, members_get_cons, if_neg h.1]
    exact ih h.2

theorem members_get_map_ne (ms : List (String × json_t)) (k : String) (v : json_t)
    (k1 : String) (h : k1 ≠ k) :
    members_get (ms.map (fun m => if m.1 == k then (k, v) else m)) k1 = members_get ms k1 := by
  induction ms with
  | nil => rfl
  | cons m ms ih =>
    obtain ⟨k0, v0⟩ := m
    by_cases h0 : k0 = k
    · subst h0
      simp only [List.map_cons, beq_self_eq_true, if_true]
      rw [members_get_cons, members_get_cons, if_neg (Ne.symm h), if_neg (Ne.symm h), ih]
    · have hb : (k0 == k) = false := by simpa using h0
      simp only [List.map_cons, hb]
      rw [members_get_cons, members_get_cons]
      simp only [Bool.false_eq_true, if_false]
      rw [ih]

theorem members_get_map_eq (ms : List (String × json_t)) (k : String) (v : json_t)
    (h : ms.any (fun m => m.1 == k) = true) :
    members_get (ms.map (fun m => if m.1 == k then (k, v) else m)) k = some v := by
  induction ms with
  | nil => simp at h
  | cons m ms ih =>
    obtain ⟨k0, v0⟩ := m
    by_cases h0 : k0 = k
    · subst h0
      simp only [List.map_cons, beq_self_eq_true, if_true]
      rw [members_get_cons, if_pos rfl]
    · have hb : (k0 == k) = false := by simpa using h0
      simp only [List.any_cons, hb, Bool.false_or] at h
      simp only [List.map_cons, hb]
      rw [members_get_cons]
      simp only [Bool.false_eq_true, if_false]
      rw [if_neg h0]
      exact ih h

theorem json_object_set_new_some (j : json_t) (k : String) (v : Option json_t) (j1 : json_t)
    (h : json_object_set_new j k v = some j1) :
    ∃ x, v = some x ∧ json_object_get j1 k = some x ∧
      ∀ k1, k1 ≠ k → json_object_get j1 k1 = json_object_get j k1 := by
  cases j with
  | object ms =>
    cases v with
    | none => simp [json_object_set_new] at h
    | some x =>
      refine ⟨x, rfl, ?_⟩
      simp only [json_object_set_new] at h
      by_cases hany : ms.any (fun m => m.1 == k) = true
      · rw [if_pos hany] at h
        cases h
        exact ⟨members_get_map_eq ms k x hany, fun k1 h1 => members_get_map_ne ms k x k1 h1⟩
      · rw [if_neg hany] at h
        cases h
        exact ⟨members_get_append_eq ms k x (Bool.eq_false_iff.mpr hany),
          fun k1 h1 => members_get_append_ne ms k x k1 h1⟩
  | _ => simp [json_object_set_new] at h

/-! ## Theorems: the expected log message -/

theorem json_object_set_new_get_ne (j : json_t) (k : String) (v : Option json_t)
    (j1 : json_t) (h : json_object_set_new j k v = some j1) (k1 : String) (hk : k1 ≠ k) :
    json_object_get j1 k1 = json_object_get j k1 := by
  obtain ⟨_, _, _, hne⟩ := json_object_set_new_some j k v j1 h
  exact hne k1 hk

theorem json_object_set_new_get_eq (j : json_t) (k : String) (x : json_t)
    (j1 : json_t) (h : json_object_set_new j k (some x) = some j1) :
    json_object_get j1 k = some x := by
  obtain ⟨y, hy, hget, _⟩ := json_object_set_new_some j k (some x) j1 h
  cases hy
  exact hget

theorem add_operation_members_keeps (op : scsi_operation_type) (s : scan_state)
    (j exec : json_t) (h : add_operation_members op s j = some exec) (k : String)
    (hk : k = "SCSI action" ∨ k = "SCSI ERROR") :
    json_object_get exec k = json_object_get j k := by
  have d1 : k ≠ "Type" := by rcases hk with rfl | rfl <;> decide
  have d2 : k ≠ "Count" := by rcases hk with rfl | rfl <;> decide
  have d3 : k ≠ "Arm address" := by rcases hk with rfl | rfl <;> decide
  have d4 : k ≠ "Source address" := by rcases hk with rfl | rfl <;> decide
  have d5 : k ≠ "Target address" := by rcases hk with rfl | rfl <;> decide
  cases op
  case LIBRARY_LOAD =>
    simp only [add_operation_members] at h
    cases h
    rfl
  case LOAD_MEDIUM =>
    simp only [add_operation_members] at h
    obtain ⟨j2, h2, h3⟩ := Option.bind_eq_some.mp h
    obtain ⟨j1, h1, h2⟩ := Option.bind_eq_some.mp h2
    rw [json_object_set_new_get_ne _ _ _ _ h3 k d5, json_object_set_new_get_ne _ _ _ _ h2 k d4,
      json_object_set_new_get_ne _ _ _ _ h1 k d3]
  all_goals
    simp only [add_operation_members] at h
    obtain ⟨j1, h1, h2⟩ := Option.bind_eq_some.mp h
    rw [json_object_set_new_get_ne _ _ _ _ h2 k d2, json_object_set_new_get_ne _ _ _ _ h1 k d1]

theorem scsi_execute_object_members (actions : scsi_operation_type → String)
    (op : scsi_operation_type) (should_fail : Bool) (s : scan_state) (exec : json_t)
    (h : scsi_execute_object actions op should_fail s = some exec) :
    json_object_get exec "SCSI action" = some (.string (actions op)) ∧
    json_object_get exec "SCSI ERROR" = (if should_fail then some scsi_error_json else none) := by
  simp only [scsi_execute_object] at h
  obtain ⟨j2, h2, h3⟩ := Option.bind_eq_some.mp h
  obtain ⟨j1, h1, h2⟩ := Option.bind_eq_some.mp h2
  rw [add_operation_members_keeps op s j2 exec h3 _ (Or.inl rfl),
    add_operation_members_keeps op s j2 exec h3 _ (Or.inr rfl)]
  refine ⟨json_object_set_new_get_eq _ _ _ _ h2, ?_⟩
  rw [json_object_set_new_get_ne _ _ _ _ h2 "SCSI ERROR" (by decide)]
  cases should_fail
  · simp only [Bool.false_eq_true, if_false] at h1 ⊢
    cases h1
    rfl
  · simp only [if_true] at h1 ⊢
    exact json_object_set_new_get_eq _ _ _ _ h1

theorem create_log_message_eq (names actions : scsi_operation_type → String)
    (lib_scan : Int × json_t) (serial : String → Option String)
    (op : scsi_operation_type) (should_fail : Bool) (medium_name device_name : String) :
    create_log_message names actions lib_scan serial op should_fail medium_name device_name =
      (scan_library lib_scan (serial device_name) op medium_name).bind (fun s =>
        (scsi_execute_object actions op should_fail s).map (wrapped_message names op)) := by
  unfold create_log_message
  cases scan_library lib_scan (serial device_name) op medium_name with
  | none => rfl
  | some s =>
    cases hx : scsi_execute_object actions op should_fail s with
    | none => cases op <;> simp [hx]
    | some exec => cases op <;> simp [hx, json_object_set_new, wrapped_message]

theorem message_scsi_execute_wrapped (names : scsi_operation_type → String)
    (op : scsi_operation_type) (exec : json_t) :
    message_scsi_execute names op (wrapped_message names op exec) = some exec := by
  cases op <;> simp [message_scsi_execute, wrapped_message, json_object_get, members_get]

theorem check_item_type_eq (item : json_t) (rsc : String) (b : Bool)
    (h : check_item_type item rsc = some b) : b = item_has_type rsc item := by
  unfold check_item_type at h
  unfold item_has_type
  cases hg : json_object_get item "type" with
  | none => simp [hg] at h
  | some t =>
    rw [hg] at h
    simp only [json_string, Option.map_some', Option.some.injEq] at h
    subst h
    cases t <;> simp [json_equal]

theorem check_item_type_some (item : json_t) (rsc : String)
    (h : json_object_get item "type" ≠ none) : ∃ b, check_item_type item rsc = some b := by
  unfold check_item_type
  cases hg : json_object_get item "type" with
  | none => exact absurd hg h
  | some t => exact ⟨_, rfl⟩

theorem scan_item_count (op : scsi_operation_type) (name : String)
    (hname : element_name op = some name) (medium_name : String) (serial : Option String)
    (s s1 : scan_state) (item : json_t) (h : scan_item op medium_name serial s item = some s1) :
    element_count op s1 = element_count op s + (if item_has_type name item then 1 else 0) := by
  cases op <;> simp only [element_name, Option.some.injEq, reduceCtorEq] at hname <;>
    subst hname <;> simp only [scan_item] at h <;>
    obtain ⟨b, hb, hs⟩ := Option.map_eq_some'.mp h <;>
    rw [← hs, ← check_item_type_eq _ _ _ hb] <;> rfl

theorem scan_loop_count (op : scsi_operation_type) (name : String)
    (hname : element_name op = some name) (medium_name : String) (serial : Option String)
    (items : List json_t) (s s1 : scan_state)
    (h : scan_loop op medium_name serial s items = some s1) :
    element_count op s1 = element_count op s + (items.countP (item_has_type name) : Nat) := by
  induction items generalizing s with
  | nil =>
    simp only [scan_loop, Option.some.injEq] at h
    subst h
    simp
  | cons item items ih =>
    simp only [scan_loop] at h
    cases hi : scan_item op medium_name serial s item with
    | none => simp [hi] at h
    | some s2 =>
      rw [hi] at h
      rw [ih s2 h, scan_item_count op name hname medium_name serial s s2 item hi,
        List.countP_cons]
      by_cases hb : item_has_type name item = true
      · simp [hb]
        ring
      · simp [hb]

theorem scan_loop_some (op : scsi_operation_type) (name : String)
    (hname : element_name op = some name) (medium_name : String) (serial : Option String)
    (items : List json_t) (htype : ∀ item ∈ items, json_object_get item "type" ≠ none)
    (s : scan_state) : ∃ s1, scan_loop op medium_name serial s items = some s1 := by
  induction items generalizing s with
  | nil => exact ⟨s, rfl⟩
  | cons item items ih =>
    have hi : ∃ s2, scan_item op medium_name serial s item = some s2 := by
      cases op <;> simp only [element_name, Option.some.injEq, reduceCtorEq] at hname <;>
        obtain ⟨b, hb⟩ :=
          check_item_type_some item name (htype item (List.mem_cons_self _ _)) <;>
        subst hname <;> exact ⟨_, by simp only [scan_item, hb]; rfl⟩
    obtain ⟨s2, hs2⟩ := hi
    obtain ⟨s1, hs1⟩ := ih (fun i hi => htype i (List.mem_cons_of_mem _ hi)) s2
    exact ⟨s1, by simp only [scan_loop, hs2, hs1]⟩

theorem scan_library_count (lib_scan : Int × json_t) (serial : Option String)
    (op : scsi_operation_type) (name : String) (hname : element_name op = some name)
    (medium_name : String) (s : scan_state)
    (h : scan_library lib_scan serial op medium_name = some s) :
    element_count op s = ((json_array_items lib_scan.2).countP (item_has_type name) : Nat) := by
  have hrange : ARMS_STATUS.value ≤ op.value ∧ op.value ≤ LOAD_MEDIUM.value := by
    cases op <;> simp [element_name] at hname <;> decide
  simp only [scan_library] at h
  rw [if_pos hrange] at h
  split at h
  · simp at h
  · rw [scan_loop_count op name hname medium_name serial _ _ s h]
    cases op <;> simp [element_name] at hname <;> simp [element_count]

theorem scan_library_some (lib_scan : Int × json_t) (serial : Option String)
    (op : scsi_operation_type) (name : String) (hname : element_name op = some name)
    (medium_name : String) (hrc : lib_scan.1 = 0)
    (htype : ∀ item ∈ json_array_items lib_scan.2, json_object_get item "type" ≠ none) :
    ∃ s, scan_library lib_scan serial op medium_name = some s := by
  have hrange : ARMS_STATUS.value ≤ op.value ∧ op.value ≤ LOAD_MEDIUM.value := by
    cases op <;> simp [element_name] at hname <;> decide
  simp only [scan_library]
  rw [if_pos hrange]
  simp only [hrc, ne_eq, not_true_eq_false, if_false]
  exact scan_loop_some op name hname medium_name serial _ htype _

theorem json_object_set_new_object (ms : List (String × json_t)) (k : String) (x : json_t) :
    ∃ ms1, json_object_set_new (.object ms) k (some x) = some (.object ms1) := by
  simp only [json_object_set_new]
  split
  · exact ⟨_, rfl⟩
  · exact ⟨_, rfl⟩

theorem add_operation_members_some (op : scsi_operation_type) (hop : op ≠ LOAD_MEDIUM)
    (s : scan_state) (ms : List (String × json_t)) :
    ∃ ms1, add_operation_members op s (.object ms) = some (.object ms1) := by
  cases op
  case LOAD_MEDIUM => exact absurd rfl hop
  case LIBRARY_LOAD => exact ⟨ms, rfl⟩
  case ARMS_STATUS =>
    obtain ⟨ms3, h3⟩ := json_object_set_new_object ms "Type" (.string "0x1")
    obtain ⟨ms4, h4⟩ := json_object_set_new_object ms3 "Count" (.integer s.arms_nb)
    exact ⟨ms4, by
      simp only [add_operation_members, json_string, Option.map_some', h3, Option.some_bind, h4]⟩
  case SLOTS_STATUS =>
    obtain ⟨ms3, h3⟩ := json_object_set_new_object ms "Type" (.string "0x2")
    obtain ⟨ms4, h4⟩ := json_object_set_new_object ms3 "Count" (.integer s.slots_nb)
    exact ⟨ms4, by
      simp only [add_operation_members, json_string, Option.map_some', h3, Option.some_bind, h4]⟩
  case IMPEXP_STATUS =>
    obtain ⟨ms3, h3⟩ := json_object_set_new_object ms "Type" (.string "0x3")
    obtain ⟨ms4, h4⟩ := json_object_set_new_object ms3 "Count" (.integer s.impexp_nb)
    exact ⟨ms4, by
      simp only [add_operation_members, json_string, Option.map_some', h3, Option.some_bind, h4]⟩
  case DRIVES_STATUS =>
    obtain ⟨ms3, h3⟩ := json_object_set_new_object ms "Type" (.string "0x4")
    obtain ⟨ms4, h4⟩ := json_object_set_new_object ms3 "Count" (.integer s.drives_nb)
    exact ⟨ms4, by
      simp only [add_operation_members, json_string, Option.map_some', h3, Option.some_bind, h4]⟩

theorem scsi_execute_object_some (actions : scsi_operation_type → String)
    (op : scsi_operation_type) (hop : op ≠ LOAD_MEDIUM) (should_fail : Bool) (s : scan_state) :
    ∃ exec, scsi_execute_object actions op should_fail s = some exec := by
  have h1 : ∃ ms1, (if should_fail = true then
      json_object_set_new (.object []) "SCSI ERROR" (some scsi_error_json)
      else some (.object [])) = some (.object ms1) := by
    cases should_fail
    · exact ⟨[], rfl⟩
    · exact json_object_set_new_object [] _ _
  obtain ⟨ms1, h1⟩ := h1
  obtain ⟨ms2, h2⟩ := json_object_set_new_object ms1 "SCSI action" (.string (actions op))
  obtain ⟨ms3, h3⟩ := add_operation_members_some op hop s ms2
  refine ⟨.object ms3, ?_⟩
  simp only [scsi_execute_object]
  rw [h1]
  simp only [Option.some_bind, json_string, Option.map_some']
  rw [h2]
  simp only [Option.some_bind]
  exact h3

theorem scsi_execute_object_status (actions : scsi_operation_type → String)
    (op : scsi_operation_type) (n : Nat) (hn : element_type_code op = some n)
    (should_fail : Bool) (s : scan_state) (exec : json_t)
    (h : scsi_execute_object actions op should_fail s = some exec) :
    json_object_get exec "Type" = some (.string ("0x" ++ toString n)) ∧
    json_object_get exec "Count" = some (.integer (element_count op s)) := by
  simp only [scsi_execute_object] at h
  obtain ⟨j2, _, h3⟩ := Option.bind_eq_some.mp h
  cases op <;> simp only [element_type_code, Option.some.injEq, reduceCtorEq] at hn <;>
    subst hn <;> simp only [add_operation_members, json_string, Option.map_some'] at h3 <;>
    obtain ⟨j3, h4, h5⟩ := Option.bind_eq_some.mp h3 <;>
    exact ⟨by
      rw [json_object_set_new_get_ne _ _ _ _ h5 "Type" (by decide)]
      exact json_object_set_new_get_eq _ _ _ _ h4,
      json_object_set_new_get_eq _ _ _ _ h5⟩

theorem scsi_error_json_members :
    json_object_get scsi_error_json "sense_key" = some (.integer 5) ∧
    json_object_get scsi_error_json "scsi_masked_status" = some (.integer 1) := by
  constructor <;> rfl

/-- C21: whenever `create_log_message` yields a message, for every kind of
operation and failure flag, the message is an object with a single key: the
name of the kind (`SCSI_OPERATION_TYPE_NAMES[op]`) when the kind is
`LOAD_MEDIUM`, and `Media lookup`, around the object of the name of the kind,
otherwise; the object under the name of the kind has the single key
`scsi_execute`, whose object has the member `SCSI action` with value
`SCSI_ACTION_NAMES[op]` and has a member `SCSI ERROR` if and only if
`should_fail`, that member having `sense_key` 5 and `scsi_masked_status` 1.
A message is yielded for `LIBRARY_LOAD` always, and for the four kinds of
element status when the library scan succeeds and its items have a type. -/
theorem create_log_message_shape (names actions : scsi_operation_type → String)
    (lib_scan : Int × json_t) (serial : String → Option String)
    (op : scsi_operation_type) (should_fail : Bool) (medium_name device_name : String) :
    (∀ msg, create_log_message names actions lib_scan serial op should_fail medium_name
        device_name = some msg →
      ∃ exec,
        msg = (if op = LOAD_MEDIUM then
            json_t.object [(names op, .object [("scsi_execute", exec)])]
          else
            json_t.object [("Media lookup",
              .object [(names op, .object [("scsi_execute", exec)])])]) ∧
        json_object_get exec "SCSI action" = some (.string (actions op)) ∧
        ((json_object_get exec "SCSI ERROR").isSome = true ↔ should_fail = true) ∧
        (should_fail = true → ∃ err, json_object_get exec "SCSI ERROR" = some err ∧
          json_object_get err "sense_key" = some (.integer 5) ∧
          json_object_get err "scsi_masked_status" = some (.integer 1))) ∧
    (op = LIBRARY_LOAD →
      ∃ msg, create_log_message names actions lib_scan serial op should_fail medium_name
        device_name = some msg) ∧
    (∀ name, element_name op = some name → lib_scan.1 = 0 →
      (∀ item ∈ json_array_items lib_scan.2, json_object_get item "type" ≠ none) →
      ∃ msg, create_log_message names actions lib_scan serial op should_fail medium_name
        device_name = some msg) := by
  refine ⟨?_, ?_, ?_⟩
  · intro msg h
    rw [create_log_message_eq] at h
    obtain ⟨s, _, h1⟩ := Option.bind_eq_some.mp h
    obtain ⟨exec, hexec, hmsg⟩ := Option.map_eq_some'.mp h1
    obtain ⟨hact, herr⟩ := scsi_execute_object_members actions op should_fail s exec hexec
    refine ⟨exec, hmsg.symm, hact, ?_, ?_⟩
    · rw [herr]
      cases should_fail <;> simp
    · intro hf
      rw [herr, hf]
      exact ⟨scsi_error_json, rfl, scsi_error_json_members⟩
  · intro hop
    subst hop
    obtain ⟨exec, hexec⟩ := scsi_execute_object_some actions LIBRARY_LOAD (by decide)
      should_fail
      { arms_nb := 0, slots_nb := 0, impexp_nb := 0, drives_nb := 0,
        addresses := { arm_address := none, medium_address := none, device_address := none } }
    refine ⟨wrapped_message names LIBRARY_LOAD exec, ?_⟩
    rw [create_log_message_eq]
    have hs : scan_library lib_scan (serial device_name) LIBRARY_LOAD medium_name =
        some { arms_nb := 0, slots_nb := 0, impexp_nb := 0, drives_nb := 0,
               addresses := { arm_address := none, medium_address := none,
                              device_address := none } } := by
      simp [scan_library, scsi_operation_type.value]
    rw [hs]
    simp only [Option.some_bind, hexec, Option.map_some']
  · intro name hname hrc htype
    have hop : op ≠ LOAD_MEDIUM := by
      intro h
      subst h
      simp [element_name] at hname
    obtain ⟨s, hs⟩ := scan_library_some lib_scan (serial device_name) op name hname
      medium_name hrc htype
    obtain ⟨exec, hexec⟩ := scsi_execute_object_some actions op hop should_fail s
    refine ⟨wrapped_message names op exec, ?_⟩
    rw [create_log_message_eq, hs]
    simp only [Option.some_bind, hexec, Option.map_some']

/-- Witness of C21: the message expected of a successful load of `P00003L5`
into `/dev/st0` in the sample library. -/
theorem create_log_message_shape_witness :
    create_log_message sample_operation_names sample_action_names sample_scan sample_serial
      LOAD_MEDIUM false "P00003L5" "/dev/st0" =
      some (.object [("Load medium", .object [("scsi_execute", .object
        [("SCSI action", .string "Move medium"), ("Arm address", .string "0"),
         ("Source address", .string "0x402"), ("Target address", .string "0x100")])])]) ∧
    ∃ exec,
      json_t.object [("Load medium", .object [("scsi_execute", .object
        [("SCSI action", .string "Move medium"), ("Arm address", .string "0"),
         ("Source address", .string "0x402"), ("Target address", .string "0x100")])])] =
        (if LOAD_MEDIUM = LOAD_MEDIUM then
            json_t.object [(sample_operation_names LOAD_MEDIUM,
              .object [("scsi_execute", exec)])]
          else
            json_t.object [("Media lookup",
              .object [(sample_operation_names LOAD_MEDIUM,
                .object [("scsi_execute", exec)])])]) ∧
      json_object_get exec "SCSI action" = some (.string (sample_action_names LOAD_MEDIUM)) ∧
      ((json_object_get exec "SCSI ERROR").isSome = true ↔ false = true) ∧
      (false = true → ∃ err, json_object_get exec "SCSI ERROR" = some err ∧
        json_object_get err "sense_key" = some (.integer 5) ∧
        json_object_get err "scsi_masked_status" = some (.integer 1)) :=
  ⟨rfl, (create_log_message_shape sample_operation_names sample_action_names sample_scan
    sample_serial LOAD_MEDIUM false "P00003L5" "/dev/st0").1 _ rfl⟩

theorem create_log_message_status (names actions : scsi_operation_type → String)
    (lib_scan : Int × json_t) (serial : String → Option String)
    (op : scsi_operation_type) (should_fail : Bool) (medium_name device_name : String)
    (n : Nat) (name : String) (hn : element_type_code op = some n)
    (hname : element_name op = some name) (msg : json_t)
    (h : create_log_message names actions lib_scan serial op should_fail medium_name
      device_name = some msg) :
    (message_scsi_execute names op msg).bind (fun exec => json_object_get exec "Type") =
      some (.string ("0x" ++ toString n)) ∧
    (message_scsi_execute names op msg).bind (fun exec => json_object_get exec "Count") =
      some (.integer ((json_array_items lib_scan.2).countP (item_has_type name) : Nat)) := by
  rw [create_log_message_eq] at h
  obtain ⟨s, hs, h1⟩ := Option.bind_eq_some.mp h
  obtain ⟨exec, hexec, hmsg⟩ := Option.map_eq_some'.mp h1
  obtain ⟨htype, hcount⟩ := scsi_execute_object_status actions op n hn should_fail s exec hexec
  rw [← hmsg, message_scsi_execute_wrapped]
  simp only [Option.some_bind]
  refine ⟨htype, ?_⟩
  rw [hcount, scan_library_count lib_scan (serial device_name) op name hname medium_name s hs]

theorem create_log_message_status_some (names actions : scsi_operation_type → String)
    (lib_scan : Int × json_t) (serial : String → Option String)
    (op : scsi_operation_type) (should_fail : Bool) (medium_name device_name : String)
    (name : String) (hname : element_name op = some name) (hrc : lib_scan.1 = 0)
    (htype : ∀ item ∈ json_array_items lib_scan.2, json_object_get item "type" ≠ none) :
    ∃ msg, create_log_message names actions lib_scan serial op should_fail medium_name
      device_name = some msg := by
  have hop : op ≠ LOAD_MEDIUM := by
    intro h
    subst h
    simp [element_name] at hname
  obtain ⟨s, hs⟩ := scan_library_some lib_scan (serial device_name) op name hname
    medium_name hrc htype
  obtain ⟨exec, hexec⟩ := scsi_execute_object_some actions op hop should_fail s
  refine ⟨wrapped_message names op exec, ?_⟩
  rw [create_log_message_eq, hs]
  simp only [Option.some_bind, hexec, Option.map_some']

theorem element_type_code_of_name (op : scsi_operation_type) (name : String)
    (h : element_name op = some name) : ∃ n, element_type_code op = some n := by
  cases op <;> simp [element_name] at h <;> exact ⟨_, rfl⟩

theorem element_name_of_type_code (op : scsi_operation_type) (n : Nat)
    (h : element_type_code op = some n) : ∃ name, element_name op = some name := by
  cases op <;> simp [element_type_code] at h <;> exact ⟨_, rfl⟩

/-- C23: for each of the four kinds of element status, `ARMS_STATUS`,
`SLOTS_STATUS`, `IMPEXP_STATUS` and `DRIVES_STATUS`, with element type code `n`
(1, 2, 3, 4), the member `Type` of the `scsi_execute` object of the message
`create_log_message` yields is the string `0x` followed by `n`, and `n` is the
one element type for which `op_to_mock` selects a `READ_ELEMENT_STATUS` command
for that kind; the message is yielded when the library scan succeeds and its
items have a type. -/
theorem create_log_message_type (names actions : scsi_operation_type → String)
    (lib_scan : Int × json_t) (serial : String → Option String)
    (op : scsi_operation_type) (should_fail : Bool) (medium_name device_name : String)
    (n : Nat) (hn : element_type_code op = some n) :
    (∀ msg, create_log_message names actions lib_scan serial op should_fail medium_name
        device_name = some msg →
      (message_scsi_execute names op msg).bind (fun exec => json_object_get exec "Type") =
        some (.string ("0x" ++ toString n))) ∧
    (lib_scan.1 = 0 →
      (∀ item ∈ json_array_items lib_scan.2, json_object_get item "type" ≠ none) →
      ∃ msg, create_log_message names actions lib_scan serial op should_fail medium_name
          device_name = some msg ∧
        (message_scsi_execute names op msg).bind (fun exec => json_object_get exec "Type") =
          some (.string ("0x" ++ toString n))) ∧
    op_to_mock op n READ_ELEMENT_STATUS = true ∧
    (∀ t, op_to_mock op t READ_ELEMENT_STATUS = true → t = n) ∧
    (element_type_code ARMS_STATUS = some 1 ∧ element_type_code SLOTS_STATUS = some 2 ∧
      element_type_code IMPEXP_STATUS = some 3 ∧ element_type_code DRIVES_STATUS = some 4) := by
  obtain ⟨name, hname⟩ := element_name_of_type_code op n hn
  refine ⟨?_, ?_, ?_, ?_, ⟨rfl, rfl, rfl, rfl⟩⟩
  · intro msg h
    exact (create_log_message_status names actions lib_scan serial op should_fail medium_name
      device_name n name hn hname msg h).1
  · intro hrc htype
    obtain ⟨msg, h⟩ := create_log_message_status_some names actions lib_scan serial op
      should_fail medium_name device_name name hname hrc htype
    exact ⟨msg, h, (create_log_message_status names actions lib_scan serial op should_fail
      medium_name device_name n name hn hname msg h).1⟩
  · cases op <;> simp [element_type_code] at hn <;> subst hn <;> rfl
  · intro t ht
    cases op <;> simp [element_type_code] at hn <;> subst hn <;>
      simp [op_to_mock, READ_ELEMENT_STATUS] at ht <;> exact ht

/-- Witness of C23: the kind `SLOTS_STATUS` on the sample library, with a
failure injected. -/
theorem create_log_message_type_witness :
    element_type_code SLOTS_STATUS = some 2 ∧
    (message_scsi_execute sample_operation_names SLOTS_STATUS
      (.object [("Media lookup", .object [("Slots status", .object [("scsi_execute",
        .object [("SCSI ERROR", scsi_error_json),
                 ("SCSI action", .string "Element status"),
                 ("Type", .string "0x2"), ("Count", .integer 2)])])])])).bind
      (fun exec => json_object_get exec "Type") = some (.string ("0x" ++ toString 2)) :=
  ⟨rfl, (create_log_message_type sample_operation_names sample_action_names sample_scan
    sample_serial SLOTS_STATUS true "P00003L5" "/dev/st0" 2 rfl).1 _ rfl⟩

/-- C24: for each of the four kinds of element status, with element name
`name` (`arm`, `slot`, `import/export`, `drive`), the member `Count` of the
`scsi_execute` object of the message `create_log_message` yields is the number
of items of the library scan whose member `type` is the string `name`; an
item of another type changes nothing to it, and it is `0` for an empty scan;
the message is yielded when the library scan succeeds and its items have a
type. -/
theorem create_log_message_count (names actions : scsi_operation_type → String)
    (lib_scan : Int × json_t) (serial : String → Option String)
    (op : scsi_operation_type) (should_fail : Bool) (medium_name device_name : String)
    (name : String) (hname : element_name op = some name) :
    (∀ msg, create_log_message names actions lib_scan serial op should_fail medium_name
        device_name = some msg →
      (message_scsi_execute names op msg).bind (fun exec => json_object_get exec "Count") =
        some (.integer ((json_array_items lib_scan.2).countP (item_has_type name) : Nat))) ∧
    (lib_scan.1 = 0 →
      (∀ item ∈ json_array_items lib_scan.2, json_object_get item "type" ≠ none) →
      ∃ msg, create_log_message names actions lib_scan serial op should_fail medium_name
          device_name = some msg ∧
        (message_scsi_execute names op msg).bind (fun exec => json_object_get exec "Count") =
          some (.integer ((json_array_items lib_scan.2).countP (item_has_type name) : Nat))) ∧
    (lib_scan.1 = 0 → json_array_items lib_scan.2 = [] →
      ∃ msg, create_log_message names actions lib_scan serial op should_fail medium_name
          device_name = some msg ∧
        (message_scsi_execute names op msg).bind (fun exec => json_object_get exec "Count") =
          some (.integer 0)) ∧
    (∀ before item after, json_array_items lib_scan.2 = before ++ item :: after →
      item_has_type name item = false →
      (json_array_items lib_scan.2).countP (item_has_type name) =
        (before ++ after).countP (item_has_type name)) ∧
    (element_name ARMS_STATUS = some "arm" ∧ element_name SLOTS_STATUS = some "slot" ∧
      element_name IMPEXP_STATUS = some "import/export" ∧
      element_name DRIVES_STATUS = some "drive") := by
  obtain ⟨n, hn⟩ := element_type_code_of_name op name hname
  have hall : ∀ msg, create_log_message names actions lib_scan serial op should_fail
      medium_name device_name = some msg →
      (message_scsi_execute names op msg).bind (fun exec => json_object_get exec "Count") =
        some (.integer ((json_array_items lib_scan.2).countP (item_has_type name) : Nat)) :=
    fun msg h => (create_log_message_status names actions lib_scan serial op should_fail
      medium_name device_name n name hn hname msg h).2
  refine ⟨hall, ?_, ?_, ?_, ⟨rfl, rfl, rfl, rfl⟩⟩
  · intro hrc htype
    obtain ⟨msg, h⟩ := create_log_message_status_some names actions lib_scan serial op
      should_fail medium_name device_name name hname hrc htype
    exact ⟨msg, h, hall msg h⟩
  · intro hrc hempty
    obtain ⟨msg, h⟩ := create_log_message_status_some names actions lib_scan serial op
      should_fail medium_name device_name name hname hrc (by
        intro item hitem
        rw [hempty] at hitem
        simp at hitem)
    refine ⟨msg, h, ?_⟩
    rw [hall msg h, hempty]
    rfl
  · intro before item after hsplit hfalse
    rw [hsplit, List.countP_append, List.countP_cons, List.countP_append]
    simp [hfalse]

/-- Witness of C24: the sample library has two slots among its four items. -/
theorem create_log_message_count_witness :
    element_name SLOTS_STATUS = some "slot" ∧
    (json_array_items sample_scan.2).countP (item_has_type "slot") = 2 ∧
    (message_scsi_execute sample_operation_names SLOTS_STATUS
      (.object [("Media lookup", .object [("Slots status", .object [("scsi_execute",
        .object [("SCSI ERROR", scsi_error_json),
                 ("SCSI action", .string "Element status"),
                 ("Type", .string "0x2"), ("Count", .integer 2)])])])])).bind
      (fun exec => json_object_get exec "Count") =
      some (.integer ((json_array_items sample_scan.2).countP (item_has_type "slot") : Nat)) :=
  ⟨rfl, rfl, (create_log_message_count sample_operation_names sample_action_names sample_scan
    sample_serial SLOTS_STATUS true "P00003L5" "/dev/st0" "slot" rfl).1 _ rfl⟩


/-! ## Theorems: the checks of a successful load -/

theorem int_neg_eq (rc : Int) (hmin : INT_MIN < rc) (hmax : rc ≤ INT_MAX) :
    int_neg rc = -rc := by
  simp only [INT_MIN, INT_MAX] at hmin hmax
  simp only [int_neg, wrap_int]
  omega

/-- At `INT_MIN` the minus of C gives `INT_MIN` again on a two's complement
machine, so the check `assert_return_code(-rc, rc)` fails there. -/
theorem scsi_logs_check_rc_int_min : scsi_logs_check_rc false INT_MIN = false := by
  decide

/-- C22: with `should_fail` false, the two checks of `scsi_logs_check` written
`assert_return_code(-rc, rc)` and `assert_return_code(-log.error_number,
log.error_number)` pass for the negative errno value `-EINVAL`: over the range
of errno values (`-4095` to `4095`) the check on the return code passes exactly
for the values that are not positive, whereas the call
`assert_return_code(rc, -rc)` of `get_serial_from_path` rejects `-EINVAL`. -/
theorem scsi_logs_check_accepts_errno :
    scsi_logs_check_rc false (-EINVAL) = true ∧
    scsi_logs_check_entry false "/dev/st0" "P00003L5"
      { device := { family := PHO_RSC_TAPE, name := "/dev/st0" },
        medium := { family := PHO_RSC_TAPE, name := "P00003L5" },
        error_number := -EINVAL, cause := PHO_DEVICE_LOAD } = true ∧
    (∀ rc : Int, -4095 ≤ rc → rc ≤ 4095 →
      (scsi_logs_check_rc false rc = true ↔ rc ≤ 0)) ∧
    assert_return_code (-EINVAL) (- -EINVAL) = false := by
  refine ⟨by decide, by decide, ?_, by decide⟩
  intro rc h1 h2
  have hn : int_neg rc = -rc := int_neg_eq rc (by simp only [INT_MIN]; omega)
    (by simp only [INT_MAX]; omega)
  simp only [scsi_logs_check_rc, assert_return_code, hn, Bool.false_eq_true, if_false,
    decide_eq_true_eq]
  omega

/-- C22 at the errno value `-EIO`: the check on the return code passes there,
as it does for every value of the errno range that is not positive. -/
theorem scsi_logs_check_accepts_errno_witness :
    scsi_logs_check_rc false (-5) = true :=
  (scsi_logs_check_accepts_errno.2.2.1 (-5) (by decide) (by decide)).2 (by decide)

end Phobos
